import Mathlib

/-!
Shallow embedding of the credential-resolution flow of `helix/mlaas.py`
(3Scale API-key automation gated by Keycloak SSO).  Network responses are
inputs; the flow is a pure function from configuration, console inputs and
responses to a result together with an explicit event trace (network
requests, prompts, cache reads/writes).
-/

namespace Helix

/-! ### Python truthiness helpers -/

/-- Python truthiness of an optional string: `None` and `""` are falsy. -/
def strTruthy : Option String → Bool
  | none => false
  | some s => s ≠ ""

/-- Python truthiness of an optional integer: `None` and `0` are falsy. -/
def intTruthy : Option Int → Bool
  | none => false
  | some i => i ≠ 0

/-- Python `a or b` on optional strings: returns `a` when truthy, else `b`. -/
def pyOrStr (a b : Option String) : Option String :=
  if strTruthy a then a else b

/-! ### XML response model

`xml.etree` access is modelled structurally: an element has optional text;
`find` yields an optional element; `findtext` yields the element's text with
`""` substituted for missing text, or `none` when the element is absent. -/

structure XmlElem where
  text : Option String
deriving DecidableEq, Repr

/-- `ElementTree.findtext`: `none` if the element is absent, else its text
with `""` for a text-less element. -/
def findtext : Option XmlElem → Option String
  | none => none
  | some el => some (el.text.getD "")

/-- Failure modes that make `make_api_call` return `None`. -/
inductive ApiFailure where
  | connectionError
  | timeoutError
  | httpError
  | parseError
deriving DecidableEq, Repr

/-- `make_api_call`: collapses every failure mode to `none`, returns the
parsed body on success. -/
def make_api_call {α : Type} (resp : Except ApiFailure α) : Option α :=
  match resp with
  | .error _ => none
  | .ok root => some root

/-- Response of `accounts/find.xml` and of `signup.xml`: the root may carry
an `id` child. -/
structure AccountXml where
  id : Option XmlElem
deriving DecidableEq, Repr

structure ServiceElem where
  id : Option XmlElem
  name : Option XmlElem
  backend_api_url : Option XmlElem
deriving DecidableEq, Repr

structure ServicesXml where
  services : List ServiceElem
deriving DecidableEq, Repr

structure PlanElem where
  id : Option XmlElem
  name : Option XmlElem
deriving DecidableEq, Repr

structure PlansXml where
  plans : List PlanElem
deriving DecidableEq, Repr

structure AppPlanElem where
  id : Option XmlElem
deriving DecidableEq, Repr

structure AppElem where
  id : Option XmlElem
  name : Option XmlElem
  user_key : Option XmlElem
  service_id : Option XmlElem
  plan : Option AppPlanElem
deriving DecidableEq, Repr

structure AppsXml where
  applications : List AppElem
deriving DecidableEq, Repr

/-- Response of `POST accounts/{id}/applications.xml`. -/
structure CreateAppXml where
  id : Option XmlElem
  user_key : Option XmlElem
deriving DecidableEq, Repr

/-! ### Parsed catalog records -/

structure Service where
  id : String
  name : String
  url : Option String
deriving DecidableEq, Repr

structure Plan where
  id : String
  name : String
deriving DecidableEq, Repr

structure AppData where
  id : String
  name : String
  user_key : String
  service_id : String
  plan_id : String
deriving DecidableEq, Repr

structure RegResult where
  app_id : String
  api_key : String
deriving DecidableEq, Repr

/-! ### 3Scale helper functions (`mlaas.py` lines 270-461) -/

/-- `find_account_by_soeid`: returns the account id text when present and
truthy, `none` otherwise (including on any API failure). -/
def find_account_by_soeid (resp : Except ApiFailure AccountXml) : Option String :=
  match make_api_call resp with
  | none => none
  | some root =>
    match root.id with
    | some el =>
      match el.text with
      | some t => if t ≠ "" then some t else none
      | none => none
    | none => none

/-- `create_threescale_account_via_signup`: same extraction of the `id`
child from the signup response. -/
def create_threescale_account_via_signup (resp : Except ApiFailure AccountXml) :
    Option String :=
  match make_api_call resp with
  | none => none
  | some root =>
    match root.id with
    | some el =>
      match el.text with
      | some t => if t ≠ "" then some t else none
      | none => none
    | none => none

/-- One iteration of the `list_services` loop body: keep the entry only when
both `id` and `name` elements exist with truthy text. -/
def serviceOfElem (e : ServiceElem) : Option Service :=
  if strTruthy (e.id.bind XmlElem.text) && strTruthy (e.name.bind XmlElem.text) then
    some { id := (e.id.bind XmlElem.text).getD ""
           name := (e.name.bind XmlElem.text).getD ""
           url := match e.backend_api_url with
                  | some b => b.text
                  | none => some "N/A" }
  else none

/-- The `for service_element in root.findall("service")` loop. -/
def servicesLoop : List ServiceElem → List Service
  | [] => []
  | e :: rest =>
    match serviceOfElem e with
    | some s => s :: servicesLoop rest
    | none => servicesLoop rest

/-- `list_services`: parse the services page, `[]` on API failure. -/
def list_services (resp : Except ApiFailure ServicesXml) : List Service :=
  match make_api_call resp with
  | none => []
  | some root => servicesLoop root.services

/-- Query parameters sent by `list_services`. -/
def list_services_params (key : String) : List (String × String) :=
  [("access_token", key), ("page", "1"), ("per_page", "500")]

/-- One iteration of the `get_application_plans` loop body. -/
def planOfElem (e : PlanElem) : Option Plan :=
  if strTruthy (e.id.bind XmlElem.text) && strTruthy (e.name.bind XmlElem.text) then
    some { id := (e.id.bind XmlElem.text).getD ""
           name := (e.name.bind XmlElem.text).getD "" }
  else none

/-- The `for plan_element in root.findall("plan")` loop. -/
def plansLoop : List PlanElem → List Plan
  | [] => []
  | e :: rest =>
    match planOfElem e with
    | some p => p :: plansLoop rest
    | none => plansLoop rest

/-- `get_application_plans`: parse the plan list, `[]` on API failure. -/
def get_application_plans (resp : Except ApiFailure PlansXml) : List Plan :=
  match make_api_call resp with
  | none => []
  | some root => plansLoop root.plans

/-- Query parameters sent by `get_application_plans`: only the access token,
no pagination. -/
def get_application_plans_params (key : String) : List (String × String) :=
  [("access_token", key)]

/-- One iteration of the `get_account_applications` loop body: build the
dict via `findtext` and keep it only when all five fields are truthy. -/
def appDataOfElem (e : AppElem) : Option AppData :=
  let idT := findtext e.id
  let nameT := findtext e.name
  let keyT := findtext e.user_key
  let sidT := findtext e.service_id
  let pidT := match e.plan with
    | some p => findtext p.id
    | none => none
  if strTruthy idT && strTruthy nameT && strTruthy keyT &&
     strTruthy pidT && strTruthy sidT then
    some { id := idT.getD "", name := nameT.getD "", user_key := keyT.getD ""
           service_id := sidT.getD "", plan_id := pidT.getD "" }
  else none

/-- The `for app_element in root.findall("application")` loop. -/
def appsLoop : List AppElem → List AppData
  | [] => []
  | e :: rest =>
    match appDataOfElem e with
    | some d => d :: appsLoop rest
    | none => appsLoop rest

/-- `get_account_applications`: parse, `[]` on API failure. -/
def get_account_applications (resp : Except ApiFailure AppsXml) : List AppData :=
  match make_api_call resp with
  | none => []
  | some root => appsLoop root.applications

/-- `register_application`: succeeds exactly when the response carries both
a truthy application id and a truthy `user_key`. -/
def register_application (resp : Except ApiFailure CreateAppXml) : Option RegResult :=
  match make_api_call resp with
  | none => none
  | some root =>
    let appId := findtext root.id
    let key := findtext root.user_key
    if strTruthy appId && strTruthy key then
      some { app_id := appId.getD "", api_key := key.getD "" }
    else none

/-! ### Token cache and the Keycloak login (`mlaas.py` lines 40-59, 162-267) -/

/-- Decoded JWT claims read by the script (`jwt.decode` without signature
verification). -/
structure Claims where
  exp : Option Int
  email : Option String
  preferred_username : Option String
  sub : Option String
deriving DecidableEq, Repr

/-- The JSON body of a Keycloak token response, as a key/value list. -/
abbrev TokenData := List (String × String)

/-- The persisted configuration: presence and contents of the
`KeycloakToken` section of the config file. -/
structure Config where
  hasTokenSection : Bool
  tokenSection : List (String × String)
deriving DecidableEq, Repr

/-- First-match association lookup (the read side of `config.get`). -/
def lookupKey : List (String × String) → String → Option String
  | [], _ => none
  | kv :: rest, k => if kv.1 = k then some kv.2 else lookupKey rest k

/-- `config.set`: replace the first binding of the key or append it. -/
def setKey : List (String × String) → String → String → List (String × String)
  | [], k, v => [(k, v)]
  | kv :: rest, k, v => if kv.1 = k then (k, v) :: rest else kv :: setKey rest k v

/-- `'access_token' in token_data`. -/
def hasKey (td : List (String × String)) (k : String) : Bool :=
  td.any (fun kv => kv.1 == k)

/-- Observable steps of one run: console prompts, network requests, config
file reads and writes. -/
inductive Event where
  | cacheRead
  | promptSoeid
  | promptPassword
  | promptEmail
  | promptSignupPassword
  | loginRequest
  | cacheWrite (payload : List (String × String))
  | findRequest (username : String)
  | signupRequest (username email password : String)
  | servicesRequest
  | plansRequest (serviceId : String)
  | appsRequest (accountId : String)
  | createRequest (accountId planId appName : String)
deriving DecidableEq, Repr

/-- Network requests among the events. -/
def Event.isNetwork : Event → Bool
  | .loginRequest => true
  | .findRequest _ => true
  | .signupRequest _ _ _ => true
  | .servicesRequest => true
  | .plansRequest _ => true
  | .appsRequest _ => true
  | .createRequest _ _ _ => true
  | _ => false

def Event.isCacheRead : Event → Bool
  | .cacheRead => true
  | _ => false

def Event.isCacheWrite : Event → Bool
  | .cacheWrite _ => true
  | _ => false

def Event.isLogin : Event → Bool
  | .loginRequest => true
  | _ => false

def Event.isSignup : Event → Bool
  | .signupRequest _ _ _ => true
  | _ => false

def Event.isApps : Event → Bool
  | .appsRequest _ => true
  | _ => false

def Event.isCreate : Event → Bool
  | .createRequest _ _ _ => true
  | _ => false

def Event.isPrompt : Event → Bool
  | .promptSoeid => true
  | .promptPassword => true
  | .promptEmail => true
  | .promptSignupPassword => true
  | _ => false

/-- Environment of `sso_login_and_get_credentials`: console inputs, the
clock, and the outcome of the decode/login calls. -/
structure AuthEnv where
  decodeCached : Option Claims
  now : Int
  defaultSoeid : String
  soeidInput : String
  passwordInput : String
  loginResponse : Except ApiFailure TokenData
  decodeFresh : Option Claims
deriving Repr

/-- Return value of the login step plus its trace and the resulting config. -/
structure AuthOut where
  access_token : Option String
  soeid : Option String
  password : Option String
  email_id : Option String
  events : List Event
  config : Config
deriving DecidableEq, Repr

/-- The cached access token: `config.get('KeycloakToken', 'access_token',
fallback=None)`. -/
def cachedAccessToken (cfg : Config) : Option String :=
  if cfg.hasTokenSection then lookupKey cfg.tokenSection "access_token" else none

/-- The reuse guard of lines 192-193: expiry, email and
preferred_username-or-sub all truthy, and expiry beyond now + 60. -/
def reuseClaimsOk (c : Claims) (now : Int) : Bool :=
  intTruthy c.exp && strTruthy c.email &&
    strTruthy (pyOrStr c.preferred_username c.sub) &&
    decide (c.exp.getD 0 > now + 60)

/-- The SOEID actually used after the prompt: the entered value, or the
system default when the entry is empty. -/
def effectiveSoeid (env : AuthEnv) : String :=
  if env.soeidInput ≠ "" then env.soeidInput else env.defaultSoeid

/-- The reuse decision of lines 179-205: a truthy cached token whose
decode succeeds and whose claims pass the guard. -/
def reuseToken (cfg : Config) (env : AuthEnv) : Option (String × Claims) :=
  match cachedAccessToken cfg with
  | some t =>
    if t ≠ "" then
      match env.decodeCached with
      | some c => if reuseClaimsOk c env.now then some (t, c) else none
      | none => none
    else none
  | none => none

/-- `sso_login_and_get_credentials`: reuse the cached token when its decoded
claims pass the guard; otherwise prompt and run a password-grant login,
persisting the full token payload on success. -/
def sso_login_and_get_credentials (cfg : Config) (env : AuthEnv) : AuthOut :=
  match reuseToken cfg env with
  | some (t, c) =>
    { access_token := some t
      soeid := pyOrStr c.preferred_username c.sub
      password := none
      email_id := c.email
      events := [.cacheRead]
      config := cfg }
  | none =>
    if effectiveSoeid env = "" then
      { access_token := none, soeid := none, password := none, email_id := none
        events := [.cacheRead, .promptSoeid], config := cfg }
    else
      let ev := [Event.cacheRead, .promptSoeid, .promptPassword, .loginRequest]
      match make_api_call env.loginResponse with
      | some td =>
        if hasKey td "access_token" then
          let tok := (lookupKey td "access_token").getD ""
          let sect := td.foldl (fun s kv => setKey s kv.1 kv.2) cfg.tokenSection
          { access_token := some tok
            soeid := some (effectiveSoeid env)
            password := some env.passwordInput
            email_id := env.decodeFresh.bind Claims.email
            events := ev ++ [.cacheWrite sect]
            config := { hasTokenSection := true, tokenSection := sect } }
        else
          { access_token := none, soeid := some (effectiveSoeid env)
            password := some env.passwordInput, email_id := none
            events := ev, config := cfg }
      | none =>
        { access_token := none, soeid := some (effectiveSoeid env)
          password := some env.passwordInput, email_id := none
          events := ev, config := cfg }

/-! ### The `--init` flow of `main` (`mlaas.py` lines 464-637) -/

inductive IdType where
  | byName
  | byId
deriving DecidableEq, Repr

/-- Python whitespace for `str.strip`. -/
def pyIsSpace (c : Char) : Bool := c = ' ' || c = '\t' || c = '\n' || c = '\r'

/-- Python `str.strip`, over the character list. -/
def pyStripList (l : List Char) : List Char :=
  ((l.dropWhile pyIsSpace).reverse.dropWhile pyIsSpace).reverse

/-- ASCII case folding of one character (Python `str.lower` on the ASCII
identifiers this flow handles). -/
def pyLowerChar (c : Char) : Char :=
  if 'A' ≤ c && c ≤ 'Z' then Char.ofNat (c.toNat + 32) else c

def pyLowerList (l : List Char) : List Char := l.map pyLowerChar

/-- Python `str.lower`. -/
def pyLower (s : String) : String := String.mk (pyLowerList s.data)

/-- Python `s.split('=', 1)`: the part before the first `=` and everything
after it; `none` when the string holds no `=`. -/
def splitEqOnce : List Char → Option (List Char × List Char)
  | [] => none
  | c :: cs =>
    if c = '=' then some ([], cs)
    else
      match splitEqOnce cs with
      | none => none
      | some (a, b) => some (c :: a, b)

/-- Parsing of the `--init` argument (lines 566-573): split at the first
`=`, strip and lowercase the kind, require `name` or `id` and a non-empty
stripped value. -/
def parseInitArg (s : String) : Option (IdType × String) :=
  match splitEqOnce s.data with
  | none => none
  | some (pre, post) =>
    let t := pyLowerList (pyStripList pre)
    let v := pyStripList post
    if t = "name".data ∧ v ≠ [] then some (.byName, String.mk v)
    else if t = "id".data ∧ v ≠ [] then some (.byId, String.mk v)
    else none

/-- The service-selection loop (lines 578-584): first match in catalog
order; names compare case-insensitively, ids exactly. -/
def selectService (t : IdType) (v : String) : List Service → Option Service
  | [] => none
  | s :: rest =>
    match t with
    | .byId => if s.id = v then some s else selectService t v rest
    | .byName => if pyLower s.name = pyLower v then some s else selectService t v rest

inductive MainResult where
  | abortedAuth
  | abortedEmail
  | abortedPassword
  | abortedSignup
  | abortedBadArg
  | abortedNoService
  | abortedNoPlans
  | abortedCreate
  | gotKey (key : String)
deriving DecidableEq, Repr

/-- Environment of the whole `--init` run. -/
structure MainEnv where
  auth : AuthEnv
  emailInput : String
  findResponse : Except ApiFailure AccountXml
  signupPasswordInput : String
  signupResponse : Except ApiFailure AccountXml
  servicesResponse : Except ApiFailure ServicesXml
  plansResponse : Except ApiFailure PlansXml
  appsResponse : Except ApiFailure AppsXml
  createResponse : Except ApiFailure CreateAppXml
  timestamp : String
deriving Repr

/-- The application-resolution step shared by the `--init` and interactive
paths (lines 592-634 and 663-704): fetch plans, take the first plan as
target, scan existing applications for the first (service, plan) match,
else register a new application named from soeid, service, plan and
timestamp. -/
def resolveKeyForService (soeid serviceId : String)
    (plansResponse : Except ApiFailure PlansXml)
    (appsResponse : Except ApiFailure AppsXml)
    (createResponse : Except ApiFailure CreateAppXml)
    (accountId timestamp : String) : MainResult × List Event :=
  match get_application_plans plansResponse with
  | [] => (.abortedNoPlans, [.plansRequest serviceId])
  | target :: _ =>
    let apps := get_account_applications appsResponse
    let ev1 : List Event := [.plansRequest serviceId, .appsRequest accountId]
    match apps.find? (fun a => a.service_id == serviceId && a.plan_id == target.id) with
    | some app => (.gotKey app.user_key, ev1)
    | none =>
      let appName := "helix-app-" ++ soeid ++ "-" ++ serviceId ++ "-" ++
        target.id ++ "-" ++ timestamp
      let ev2 := ev1 ++ [Event.createRequest accountId target.id appName]
      match register_application createResponse with
      | some reg => (.gotKey reg.api_key, ev2)
      | none => (.abortedCreate, ev2)

/-- Service-identification phase of `--init` (lines 561-590): parse the
argument, list services, select the first match. -/
def initServicePhase (env : MainEnv) (arg soeid accountId : String)
    (ev : List Event) : MainResult × List Event :=
  match parseInitArg arg with
  | none => (.abortedBadArg, ev)
  | some (t, v) =>
    let ev1 := ev ++ [Event.servicesRequest]
    match selectService t v (list_services env.servicesResponse) with
    | none => (.abortedNoService, ev1)
    | some s =>
      let r := resolveKeyForService soeid s.id env.plansResponse env.appsResponse
        env.createResponse accountId env.timestamp
      (r.1, ev1 ++ r.2)

/-- The password handling of lines 510-516: reuse the password collected at
login, or prompt for one; an empty entry means no password. -/
def signupPasswordStep (password : Option String) (input : String)
    (ev : List Event) : Option String × List Event :=
  match password with
  | some p => (some p, ev)
  | none =>
    let ev2 := ev ++ [Event.promptSignupPassword]
    if input = "" then (none, ev2) else (some input, ev2)

/-- The provisioning tail of lines 518-524: sign up with the chosen
password, abort when no account id comes back, else continue with the
service phase. -/
def accountTail (env : MainEnv) (arg soeid email p : String)
    (base : List Event) : MainResult × List Event :=
  let ev3 := base ++ [Event.signupRequest soeid email p]
  match create_threescale_account_via_signup env.signupResponse with
  | none => (.abortedSignup, ev3)
  | some accountId => initServicePhase env arg soeid accountId ev3

/-- Account-resolution phase (lines 504-526) followed by the service phase:
on a missing account, reuse the login password or prompt for one, then
sign up exactly once; signup failure aborts. -/
def accountPhase (env : MainEnv) (arg soeid email : String)
    (password : Option String) (ev : List Event) : MainResult × List Event :=
  let ev1 := ev ++ [Event.findRequest soeid]
  match find_account_by_soeid env.findResponse with
  | some accountId => initServicePhase env arg soeid accountId ev1
  | none =>
    let pwStep := signupPasswordStep password env.signupPasswordInput ev1
    match pwStep.1 with
    | none => (.abortedPassword, pwStep.2)
    | some p => accountTail env arg soeid email p pwStep.2

/-- `main` restricted to the `--init` subcommand: authenticate, settle the
email, resolve or create the account, then resolve the API key. -/
def mainInit (cfg : Config) (env : MainEnv) (arg : String) : MainResult × List Event :=
  let a := sso_login_and_get_credentials cfg env.auth
  if strTruthy a.access_token then
    let email0 := if strTruthy a.email_id then a.email_id.getD "" else env.emailInput
    let ev1 := a.events ++ (if strTruthy a.email_id then [] else [Event.promptEmail])
    if email0 = "" then (.abortedEmail, ev1)
    else accountPhase env arg (a.soeid.getD "") email0 a.password ev1
  else (.abortedAuth, a.events)

/-- Events that the application-resolution step can emit. -/
def Event.isResolveStep : Event → Bool
  | .plansRequest _ => true
  | .appsRequest _ => true
  | .createRequest _ _ _ => true
  | _ => false

/-- Events that any post-authentication phase can emit. -/
def Event.isPostAuth : Event → Bool
  | .findRequest _ => true
  | .promptSignupPassword => true
  | .signupRequest _ _ _ => true
  | .servicesRequest => true
  | .plansRequest _ => true
  | .appsRequest _ => true
  | .createRequest _ _ _ => true
  | .promptEmail => true
  | _ => false

/-- Events that the service-identification phase can emit. -/
def Event.isServicePhase : Event → Bool
  | .servicesRequest => true
  | .plansRequest _ => true
  | .appsRequest _ => true
  | .createRequest _ _ _ => true
  | _ => false

/-! ### Concrete inputs used to evaluate the flow at specific points -/

/-- An XML element carrying the given text. -/
def el (s : String) : Option XmlElem := some { text := some s }

/-- A config file holding a cached access token. -/
def cfgCached : Config := { hasTokenSection := true, tokenSection := [("access_token", "cached")] }

/-- Claims of an expired cached token (exp = 10, now = 1000). -/
def expiredClaims : Claims :=
  { exp := some 10, email := some "jdoe@example.com", preferred_username := some "jdoe", sub := none }

/-- Claims of a still-valid cached token (exp = 99999, now = 1000). -/
def validClaims : Claims :=
  { exp := some 99999, email := some "jdoe@example.com", preferred_username := some "jdoe", sub := none }

/-- Auth environment where the cached token is expired and both the SOEID
entry and its system default are empty. -/
def emptySoeidEnv : AuthEnv :=
  { decodeCached := some expiredClaims, now := 1000, defaultSoeid := ""
    soeidInput := "", passwordInput := ""
    loginResponse := .ok [("access_token", "fresh")], decodeFresh := none }

/-- Auth environment where the cached token is still valid: the login is
skipped, so no password is collected. -/
def reuseEnv : AuthEnv :=
  { decodeCached := some validClaims, now := 1000, defaultSoeid := ""
    soeidInput := "", passwordInput := ""
    loginResponse := .ok [("access_token", "fresh")], decodeFresh := none }

/-- Auth environment of a fresh, successful login. -/
def freshLoginEnv : AuthEnv :=
  { decodeCached := none, now := 1000, defaultSoeid := ""
    soeidInput := "jdoe", passwordInput := "pw"
    loginResponse := .ok [("access_token", "tok123"), ("expires_in", "300")]
    decodeFresh := some validClaims }

/-- Main-flow environment whose account-find response carries no id element
and whose signup-password prompt receives an empty answer, under a reused
token (no password collected at login). -/
def noAccountEmptyPasswordEnv : MainEnv :=
  { auth := reuseEnv, emailInput := ""
    findResponse := .ok { id := none }
    signupPasswordInput := ""
    signupResponse := .ok { id := el "77" }
    servicesResponse := .ok { services := [{ id := el "1", name := el "svcA", backend_api_url := none }] }
    plansResponse := .ok { plans := [{ id := el "9", name := el "basic" }] }
    appsResponse := .ok { applications := [] }
    createResponse := .ok { id := el "100", user_key := el "abcd1234" }
    timestamp := "20250101000000" }

/-- Main-flow environment of the nominal fresh-login path: account found,
one service, one plan, no existing application, creation succeeds. -/
def nominalEnv : MainEnv :=
  { auth := freshLoginEnv, emailInput := ""
    findResponse := .ok { id := el "42" }
    signupPasswordInput := ""
    signupResponse := .ok { id := none }
    servicesResponse := .ok { services := [{ id := el "1", name := el "svcA", backend_api_url := none }] }
    plansResponse := .ok { plans := [{ id := el "9", name := el "basic" }] }
    appsResponse := .ok { applications := [] }
    createResponse := .ok { id := el "100", user_key := el "abcd1234" }
    timestamp := "20250101000000" }

/-- An existing application binding service 1 to plan 9 with key KEY5. -/
def existingAppElem : AppElem :=
  { id := el "5", name := el "app5", user_key := el "KEY5"
    service_id := el "1", plan := some { id := el "9" } }

/-! ### Helper lemmas -/

theorem servicesLoop_eq_filterMap (xs : List ServiceElem) :
    servicesLoop xs = xs.filterMap serviceOfElem := by
  induction xs with
  | nil => rfl
  | cons e rest ih =>
    simp only [servicesLoop, List.filterMap_cons]
    cases serviceOfElem e <;> simp [ih]

theorem plansLoop_eq_filterMap (xs : List PlanElem) :
    plansLoop xs = xs.filterMap planOfElem := by
  induction xs with
  | nil => rfl
  | cons e rest ih =>
    simp only [plansLoop, List.filterMap_cons]
    cases planOfElem e <;> simp [ih]

theorem appsLoop_eq_filterMap (xs : List AppElem) :
    appsLoop xs = xs.filterMap appDataOfElem := by
  induction xs with
  | nil => rfl
  | cons e rest ih =>
    simp only [appsLoop, List.filterMap_cons]
    cases appDataOfElem e <;> simp [ih]

theorem selectService_byId_eq_find (v : String) (svcs : List Service) :
    selectService .byId v svcs = svcs.find? (fun s => s.id == v) := by
  induction svcs with
  | nil => rfl
  | cons s rest ih =>
    simp only [selectService, List.find?]
    by_cases h : s.id = v
    · simp [h]
    · have hb : (s.id == v) = false := by simp [h]
      simp [h, hb, ih]

theorem selectService_byName_eq_find (v : String) (svcs : List Service) :
    selectService .byName v svcs = svcs.find? (fun s => pyLower s.name == pyLower v) := by
  induction svcs with
  | nil => rfl
  | cons s rest ih =>
    simp only [selectService, List.find?]
    by_cases h : pyLower s.name = pyLower v
    · simp [h]
    · have hb : (pyLower s.name == pyLower v) = false := by simp [h]
      simp [h, hb, ih]

theorem lookupKey_setKey_self (s : List (String × String)) (k v : String) :
    lookupKey (setKey s k v) k = some v := by
  induction s with
  | nil => simp [setKey, lookupKey]
  | cons kv rest ih =>
    by_cases h : kv.1 = k
    · simp [setKey, h, lookupKey]
    · simp [setKey, h, lookupKey, ih]

theorem lookupKey_setKey_ne (s : List (String × String)) (k k' v : String)
    (h : k' ≠ k) : lookupKey (setKey s k' v) k = lookupKey s k := by
  induction s with
  | nil => simp [setKey, lookupKey, h]
  | cons kv rest ih =>
    by_cases hk : kv.1 = k'
    · simp [setKey, hk, lookupKey, h, hk ▸ h]
    · simp [setKey, hk, lookupKey, ih]

theorem lookupKey_foldl_of_not_mem (td : List (String × String))
    (s : List (String × String)) (k : String) (h : k ∉ td.map Prod.fst) :
    lookupKey (td.foldl (fun acc kv => setKey acc kv.1 kv.2) s) k = lookupKey s k := by
  induction td generalizing s with
  | nil => rfl
  | cons kv rest ih =>
    simp only [List.map_cons, List.mem_cons] at h
    push_neg at h
    simp only [List.foldl_cons]
    rw [ih _ h.2, lookupKey_setKey_ne _ _ _ _ h.1.symm]

/-- With distinct keys, folding `config.set` over the token payload makes
every payload entry retrievable. -/
theorem lookupKey_foldl_setKey (td : List (String × String))
    (s : List (String × String)) (hnd : (td.map Prod.fst).Nodup) :
    ∀ kv ∈ td, lookupKey (td.foldl (fun acc x => setKey acc x.1 x.2) s) kv.1 = some kv.2 := by
  induction td generalizing s with
  | nil => intro kv h; cases h
  | cons hd rest ih =>
    simp only [List.map_cons, List.nodup_cons] at hnd
    intro kv hkv
    rcases List.mem_cons.mp hkv with h | h
    · subst h
      simp only [List.foldl_cons]
      rw [lookupKey_foldl_of_not_mem _ _ _ hnd.1, lookupKey_setKey_self]
    · exact ih _ hnd.2 kv h

theorem isPostAuth_props (e : Event) (h : e.isPostAuth = true) :
    e.isCacheRead = false ∧ e.isCacheWrite = false ∧ e.isLogin = false := by
  cases e <;> simp_all [Event.isPostAuth, Event.isCacheRead, Event.isCacheWrite, Event.isLogin]

theorem isResolveStep_props (e : Event) (h : e.isResolveStep = true) :
    e.isCacheRead = false ∧ e.isCacheWrite = false ∧ e.isLogin = false ∧
    e.isSignup = false ∧ e.isPrompt = false := by
  cases e <;> simp_all [Event.isResolveStep, Event.isCacheRead, Event.isCacheWrite,
    Event.isLogin, Event.isSignup, Event.isPrompt]

theorem resolveKeyForService_events_shape (soeid sid : String)
    (pr : Except ApiFailure PlansXml) (ar : Except ApiFailure AppsXml)
    (cr : Except ApiFailure CreateAppXml) (acct ts : String) :
    ∀ e ∈ (resolveKeyForService soeid sid pr ar cr acct ts).2, e.isResolveStep = true := by
  intro e he
  rcases h1 : get_application_plans pr with _ | ⟨target, rest⟩ <;>
    simp only [resolveKeyForService, h1] at he
  · fin_cases he <;> rfl
  · rcases h2 : (get_account_applications ar).find?
        (fun a => a.service_id == sid && a.plan_id == target.id) with _ | app <;>
      simp only [h2, List.cons_append, List.nil_append] at he
    · rcases h3 : register_application cr with _ | reg <;>
        simp only [h3] at he <;> fin_cases he <;> rfl
    · fin_cases he <;> rfl

theorem isServicePhase_props (e : Event) (h : e.isServicePhase = true) :
    e.isCacheRead = false ∧ e.isCacheWrite = false ∧ e.isLogin = false ∧
    e.isSignup = false ∧ e.isPrompt = false := by
  cases e <;> simp_all [Event.isServicePhase, Event.isCacheRead, Event.isCacheWrite,
    Event.isLogin, Event.isSignup, Event.isPrompt]

theorem isServicePhase_postAuth (e : Event) (h : e.isServicePhase = true) :
    e.isPostAuth = true := by
  cases e <;> simp_all [Event.isServicePhase, Event.isPostAuth]

theorem initServicePhase_events (env : MainEnv) (arg soeid acct : String)
    (ev : List Event) :
    ∃ extra, (initServicePhase env arg soeid acct ev).2 = ev ++ extra ∧
      ∀ e ∈ extra, e.isServicePhase = true := by
  unfold initServicePhase
  split
  · exact ⟨[], by simp⟩
  · split
    · refine ⟨[.servicesRequest], by simp, ?_⟩
      intro e he
      simp only [List.mem_singleton] at he
      subst he; rfl
    · rename_i t v heq s hs
      refine ⟨[Event.servicesRequest] ++
        (resolveKeyForService soeid s.id env.plansResponse env.appsResponse
          env.createResponse acct env.timestamp).2, by simp, ?_⟩
      intro e he
      simp only [List.mem_append, List.mem_singleton] at he
      rcases he with h | h
      · subst h; rfl
      · have := resolveKeyForService_events_shape soeid s.id env.plansResponse
          env.appsResponse env.createResponse acct env.timestamp e h
        cases e <;> simp_all [Event.isResolveStep, Event.isServicePhase]

theorem signupPasswordStep_snd (password : Option String) (input : String)
    (ev : List Event) :
    (signupPasswordStep password input ev).2 = ev ∨
    (signupPasswordStep password input ev).2 = ev ++ [Event.promptSignupPassword] := by
  cases password with
  | some p => left; rfl
  | none =>
    right
    simp only [signupPasswordStep]
    split <;> rfl

theorem accountPhase_events (env : MainEnv) (arg soeid email : String)
    (pw : Option String) (ev : List Event) :
    ∃ extra, (accountPhase env arg soeid email pw ev).2 = ev ++ extra ∧
      ∀ e ∈ extra, e.isPostAuth = true := by
  have hbase1 : ∀ e ∈ [Event.findRequest soeid], Event.isPostAuth e = true := by
    intro e he
    simp only [List.mem_singleton] at he; subst he; rfl
  have hbase2 : ∀ e ∈ [Event.findRequest soeid, Event.promptSignupPassword],
      Event.isPostAuth e = true := by
    intro e he
    simp only [List.mem_cons, List.mem_singleton] at he
    rcases he with h1 | h1 | h1
    · subst h1; rfl
    · subst h1; rfl
    · cases h1
  have hsnd := signupPasswordStep_snd pw env.signupPasswordInput
    (ev ++ [Event.findRequest soeid])
  rcases hfind : find_account_by_soeid env.findResponse with _ | acct
  · rcases hpw : (signupPasswordStep pw env.signupPasswordInput
        (ev ++ [Event.findRequest soeid])).1 with _ | p
    · simp only [accountPhase, hfind, hpw]
      rcases hsnd with h | h
      · exact ⟨[Event.findRequest soeid], h, hbase1⟩
      · exact ⟨[Event.findRequest soeid, Event.promptSignupPassword],
          by rw [h]; simp, hbase2⟩
    · rcases hc : create_threescale_account_via_signup env.signupResponse with _ | acct2
      · simp only [accountPhase, accountTail, hfind, hpw, hc]
        rcases hsnd with h | h
        · refine ⟨[Event.findRequest soeid] ++ [Event.signupRequest soeid email p],
            by rw [h]; simp, ?_⟩
          intro e he
          rcases List.mem_append.mp he with h1 | h1
          · exact hbase1 e h1
          · simp only [List.mem_singleton] at h1; subst h1; rfl
        · refine ⟨[Event.findRequest soeid, Event.promptSignupPassword] ++
            [Event.signupRequest soeid email p], by rw [h]; simp, ?_⟩
          intro e he
          rcases List.mem_append.mp he with h1 | h1
          · exact hbase2 e h1
          · simp only [List.mem_singleton] at h1; subst h1; rfl
      · simp only [accountPhase, accountTail, hfind, hpw, hc]
        obtain ⟨extra, hex, hp⟩ := initServicePhase_events env arg soeid acct2
          ((signupPasswordStep pw env.signupPasswordInput
            (ev ++ [Event.findRequest soeid])).2 ++ [Event.signupRequest soeid email p])
        rcases hsnd with h | h
        · refine ⟨[Event.findRequest soeid] ++ [Event.signupRequest soeid email p] ++ extra,
            ?_, ?_⟩
          · rw [hex, h]; simp
          · intro e he
            rcases List.mem_append.mp he with h1 | h1
            · rcases List.mem_append.mp h1 with h2 | h2
              · exact hbase1 e h2
              · simp only [List.mem_singleton] at h2; subst h2; rfl
            · exact isServicePhase_postAuth e (hp e h1)
        · refine ⟨[Event.findRequest soeid, Event.promptSignupPassword] ++
            [Event.signupRequest soeid email p] ++ extra, ?_, ?_⟩
          · rw [hex, h]; simp
          · intro e he
            rcases List.mem_append.mp he with h1 | h1
            · rcases List.mem_append.mp h1 with h2 | h2
              · exact hbase2 e h2
              · simp only [List.mem_singleton] at h2; subst h2; rfl
            · exact isServicePhase_postAuth e (hp e h1)
  · simp only [accountPhase, hfind]
    obtain ⟨extra, hex, hp⟩ :=
      initServicePhase_events env arg soeid acct (ev ++ [Event.findRequest soeid])
    refine ⟨[Event.findRequest soeid] ++ extra, by rw [hex]; simp, ?_⟩
    intro e he
    rcases List.mem_append.mp he with h | h
    · exact hbase1 e h
    · exact isServicePhase_postAuth e (hp e h)

theorem mainInit_events (cfg : Config) (env : MainEnv) (arg : String) :
    ∃ extra, (mainInit cfg env arg).2 =
      (sso_login_and_get_credentials cfg env.auth).events ++ extra ∧
      ∀ e ∈ extra, e.isPostAuth = true := by
  have hEmailExtra : ∀ b : Bool,
      ∀ e ∈ (if b = true then ([] : List Event) else [Event.promptEmail]),
        Event.isPostAuth e = true := by
    intro b e he
    cases b
    · simp at he; subst he; rfl
    · simp at he
  by_cases htok : strTruthy (sso_login_and_get_credentials cfg env.auth).access_token = true
  · by_cases hmail :
      (if strTruthy (sso_login_and_get_credentials cfg env.auth).email_id = true
        then (sso_login_and_get_credentials cfg env.auth).email_id.getD ""
        else env.emailInput) = ""
    · simp only [mainInit]
      rw [if_pos htok, if_pos hmail]
      refine ⟨if strTruthy (sso_login_and_get_credentials cfg env.auth).email_id = true
        then [] else [Event.promptEmail], by simp, ?_⟩
      exact hEmailExtra _
    · simp only [mainInit]
      rw [if_pos htok, if_neg hmail]
      obtain ⟨extra, hex, hp⟩ := accountPhase_events env arg
        ((sso_login_and_get_credentials cfg env.auth).soeid.getD "")
        (if strTruthy (sso_login_and_get_credentials cfg env.auth).email_id = true
          then (sso_login_and_get_credentials cfg env.auth).email_id.getD ""
          else env.emailInput)
        (sso_login_and_get_credentials cfg env.auth).password
        ((sso_login_and_get_credentials cfg env.auth).events ++
          (if strTruthy (sso_login_and_get_credentials cfg env.auth).email_id = true
            then [] else [Event.promptEmail]))
      refine ⟨(if strTruthy (sso_login_and_get_credentials cfg env.auth).email_id = true
          then [] else [Event.promptEmail]) ++ extra, ?_, ?_⟩
      · rw [hex]; simp
      · intro e he
        rcases List.mem_append.mp he with h | h
        · exact hEmailExtra _ e h
        · exact hp e h
  · simp only [mainInit]
    rw [if_neg htok]
    exact ⟨[], by simp, by intro e he; cases he⟩


/-! ### Claim theorems -/

/-- C1: application resolution keeps one application canonical per
(account, service, plan) triple: when the parsed existing-application list
has an entry matching the selected service and the target (first) plan, the
resolver returns the first such entry's `user_key` and issues no
application-create request. -/
theorem C1_reuse_no_create (soeid serviceId accountId timestamp : String)
    (plansResponse : Except ApiFailure PlansXml)
    (appsResponse : Except ApiFailure AppsXml)
    (createResponse : Except ApiFailure CreateAppXml)
    (target : Plan) (rest : List Plan)
    (hplans : get_application_plans plansResponse = target :: rest)
    (app : AppData)
    (happ : (get_account_applications appsResponse).find?
      (fun a => a.service_id == serviceId && a.plan_id == target.id) = some app) :
    resolveKeyForService soeid serviceId plansResponse appsResponse createResponse
        accountId timestamp =
      (MainResult.gotKey app.user_key,
        [Event.plansRequest serviceId, Event.appsRequest accountId]) ∧
    (resolveKeyForService soeid serviceId plansResponse appsResponse createResponse
        accountId timestamp).2.countP Event.isCreate = 0 := by
  have h : resolveKeyForService soeid serviceId plansResponse appsResponse createResponse
      accountId timestamp =
      (MainResult.gotKey app.user_key,
        [Event.plansRequest serviceId, Event.appsRequest accountId]) := by
    simp only [resolveKeyForService, hplans, happ]
  exact ⟨h, by rw [h]; rfl⟩

/-- Witness for C1 at a concrete catalog: one plan (id 9), one matching
existing application with key KEY5. -/
theorem C1_reuse_no_create_witness :
    get_application_plans nominalEnv.plansResponse =
      [{ id := "9", name := "basic" }] ∧
    (get_account_applications (.ok { applications := [existingAppElem] })).find?
      (fun a => a.service_id == "1" && a.plan_id == "9") =
      some { id := "5", name := "app5", user_key := "KEY5"
             service_id := "1", plan_id := "9" } ∧
    resolveKeyForService "jdoe" "1" nominalEnv.plansResponse
        (.ok { applications := [existingAppElem] }) nominalEnv.createResponse
        "42" "ts" =
      (MainResult.gotKey "KEY5", [Event.plansRequest "1", Event.appsRequest "42"]) :=
  ⟨by decide, by decide,
    (C1_reuse_no_create "jdoe" "1" "42" "ts" nominalEnv.plansResponse
      (.ok { applications := [existingAppElem] }) nominalEnv.createResponse
      { id := "9", name := "basic" } [] (by decide)
      { id := "5", name := "app5", user_key := "KEY5"
        service_id := "1", plan_id := "9" } (by decide)).1⟩

/-- C3: with no matching existing application, exactly one create request is
issued; the operation returns the generated key iff the create response
carries both a truthy application id and a truthy user_key; otherwise it
returns no key and the flow aborts. -/
theorem C3_create_exactly_once (soeid serviceId accountId timestamp : String)
    (plansResponse : Except ApiFailure PlansXml)
    (appsResponse : Except ApiFailure AppsXml)
    (createResponse : Except ApiFailure CreateAppXml)
    (target : Plan) (rest : List Plan)
    (hplans : get_application_plans plansResponse = target :: rest)
    (hnone : (get_account_applications appsResponse).find?
      (fun a => a.service_id == serviceId && a.plan_id == target.id) = none) :
    ((resolveKeyForService soeid serviceId plansResponse appsResponse createResponse
        accountId timestamp).2.countP Event.isCreate = 1) ∧
    (∀ f, createResponse = .error f →
      (resolveKeyForService soeid serviceId plansResponse appsResponse createResponse
        accountId timestamp).1 = .abortedCreate) ∧
    (∀ root, createResponse = .ok root →
      ((strTruthy (findtext root.id) && strTruthy (findtext root.user_key)) = true →
        (resolveKeyForService soeid serviceId plansResponse appsResponse createResponse
          accountId timestamp).1 = .gotKey ((findtext root.user_key).getD "")) ∧
      ((strTruthy (findtext root.id) && strTruthy (findtext root.user_key)) = false →
        (resolveKeyForService soeid serviceId plansResponse appsResponse createResponse
          accountId timestamp).1 = .abortedCreate)) := by
  refine ⟨?_, ?_, ?_⟩
  · rcases hr : register_application createResponse with _ | reg <;>
      simp only [resolveKeyForService, hplans, hnone, hr] <;> rfl
  · intro f hf
    have hr : register_application createResponse = none := by subst hf; rfl
    simp only [resolveKeyForService, hplans, hnone, hr]
  · intro root hroot
    subst hroot
    constructor
    · intro hcond
      have hr : register_application (.ok root) =
          some { app_id := (findtext root.id).getD ""
                 api_key := (findtext root.user_key).getD "" } := by
        unfold register_application make_api_call
        simp [hcond]
      simp only [resolveKeyForService, hplans, hnone, hr]
    · intro hcond
      have hr : register_application (.ok root) = none := by
        unfold register_application make_api_call
        simp [hcond]
      simp only [resolveKeyForService, hplans, hnone, hr]

/-- Witness for C3: one plan, no existing applications, creation succeeds
with key abcd1234; exactly one create request is issued. -/
theorem C3_create_exactly_once_witness :
    get_application_plans nominalEnv.plansResponse =
      [{ id := "9", name := "basic" }] ∧
    (get_account_applications nominalEnv.appsResponse).find?
      (fun a => a.service_id == "1" && a.plan_id == "9") = none ∧
    (resolveKeyForService "jdoe" "1" nominalEnv.plansResponse nominalEnv.appsResponse
      nominalEnv.createResponse "42" "ts").2.countP Event.isCreate = 1 :=
  ⟨by decide, by decide,
    (C3_create_exactly_once "jdoe" "1" "42" "ts" nominalEnv.plansResponse
      nominalEnv.appsResponse nominalEnv.createResponse
      { id := "9", name := "basic" } [] (by decide) (by decide)).1⟩

/-- C9: the plan used both for matching existing applications and for
creating a new one is always the first plan returned for the service; the
resolver offers no plan choice (no prompt events), and an empty plan list
aborts before any application lookup or creation. -/
theorem C9_first_plan (soeid serviceId accountId timestamp : String)
    (plansResponse : Except ApiFailure PlansXml)
    (appsResponse : Except ApiFailure AppsXml)
    (createResponse : Except ApiFailure CreateAppXml) :
    ((resolveKeyForService soeid serviceId plansResponse appsResponse createResponse
        accountId timestamp).2.countP Event.isPrompt = 0) ∧
    (get_application_plans plansResponse = [] →
      (resolveKeyForService soeid serviceId plansResponse appsResponse createResponse
        accountId timestamp).1 = .abortedNoPlans ∧
      (resolveKeyForService soeid serviceId plansResponse appsResponse createResponse
        accountId timestamp).2.countP Event.isApps = 0 ∧
      (resolveKeyForService soeid serviceId plansResponse appsResponse createResponse
        accountId timestamp).2.countP Event.isCreate = 0) ∧
    (∀ target rest, get_application_plans plansResponse = target :: rest →
      (∀ a p n, Event.createRequest a p n ∈
          (resolveKeyForService soeid serviceId plansResponse appsResponse createResponse
            accountId timestamp).2 → p = target.id) ∧
      (∀ app, (get_account_applications appsResponse).find?
          (fun x => x.service_id == serviceId && x.plan_id == target.id) = some app →
        (resolveKeyForService soeid serviceId plansResponse appsResponse createResponse
          accountId timestamp).1 = .gotKey app.user_key)) := by
  refine ⟨?_, ?_, ?_⟩
  · rw [List.countP_eq_zero]
    intro e he
    have h1 := resolveKeyForService_events_shape soeid serviceId plansResponse
      appsResponse createResponse accountId timestamp e he
    have h2 := (isResolveStep_props e h1).2.2.2.2
    simp [h2]
  · intro hp
    refine ⟨?_, ?_, ?_⟩ <;> simp only [resolveKeyForService, hp] <;> rfl
  · intro target rest hp
    constructor
    · intro a p n hmem
      rcases h2 : (get_account_applications appsResponse).find?
          (fun x => x.service_id == serviceId && x.plan_id == target.id) with _ | app
      · rcases h3 : register_application createResponse with _ | reg
        · simp only [resolveKeyForService, hp, h2, h3] at hmem
          simp at hmem
          exact hmem.2.1
        · simp only [resolveKeyForService, hp, h2, h3] at hmem
          simp at hmem
          exact hmem.2.1
      · simp only [resolveKeyForService, hp, h2] at hmem
        simp at hmem
    · intro app happ
      simp only [resolveKeyForService, hp, happ]

/-- Witness for C9: with plans = [plan 9] the resolver matches the existing
application against plan 9 (the head) and returns its key. -/
theorem C9_first_plan_witness :
    get_application_plans nominalEnv.plansResponse =
      [{ id := "9", name := "basic" }] ∧
    (resolveKeyForService "jdoe" "1" nominalEnv.plansResponse
        (.ok { applications := [existingAppElem] }) nominalEnv.createResponse
        "42" "ts").1 = .gotKey "KEY5" :=
  ⟨by decide,
    ((C9_first_plan "jdoe" "1" "42" "ts" nominalEnv.plansResponse
        (.ok { applications := [existingAppElem] })
        nominalEnv.createResponse).2.2 { id := "9", name := "basic" } []
        (by decide)).2
      { id := "5", name := "app5", user_key := "KEY5"
        service_id := "1", plan_id := "9" }
      (by decide)⟩

/-- Counterexample to C7 as stated: the plan-list catalog read sends no
`page` or `per_page` parameter at all, while the service-list read does. -/
theorem C7_counterexample :
    ("page", "1") ∈ list_services_params "k" ∧
    ("per_page", "500") ∈ list_services_params "k" ∧
    (get_application_plans_params "k").countP (fun kv => kv.1 == "page") = 0 ∧
    (get_application_plans_params "k").countP (fun kv => kv.1 == "per_page") = 0 := by
  decide

/-- C7 (amended): the service-list read fetches a single page capped at a
fixed size (page=1, per_page=500); the plan-list read sends only the access
token with no pagination; both map entries into a flat list, an entry being
kept exactly when its required fields (id and name with truthy text) are
present, and both return an empty list rather than failing on an API
error. -/
theorem C7_catalog_reads (key : String) :
    (("page", "1") ∈ list_services_params key ∧
     ("per_page", "500") ∈ list_services_params key) ∧
    (get_application_plans_params key = [("access_token", key)]) ∧
    (∀ root, list_services (.ok root) = root.services.filterMap serviceOfElem) ∧
    (∀ f, list_services (.error f) = []) ∧
    (∀ e, (serviceOfElem e).isSome =
      (strTruthy (e.id.bind XmlElem.text) && strTruthy (e.name.bind XmlElem.text))) ∧
    (∀ root, get_application_plans (.ok root) = root.plans.filterMap planOfElem) ∧
    (∀ f, get_application_plans (.error f) = []) ∧
    (∀ e, (planOfElem e).isSome =
      (strTruthy (e.id.bind XmlElem.text) && strTruthy (e.name.bind XmlElem.text))) := by
  refine ⟨⟨by simp [list_services_params], by simp [list_services_params]⟩,
    rfl, ?_, ?_, ?_, ?_, ?_, ?_⟩
  · intro root
    simp only [list_services, make_api_call]
    exact servicesLoop_eq_filterMap root.services
  · intro f; rfl
  · intro e
    by_cases h : (strTruthy (e.id.bind XmlElem.text) &&
        strTruthy (e.name.bind XmlElem.text)) = true
    · simp [serviceOfElem, h]
    · simp only [Bool.not_eq_true] at h
      simp [serviceOfElem, h]
  · intro root
    simp only [get_application_plans, make_api_call]
    exact plansLoop_eq_filterMap root.plans
  · intro f; rfl
  · intro e
    by_cases h : (strTruthy (e.id.bind XmlElem.text) &&
        strTruthy (e.name.bind XmlElem.text)) = true
    · simp [planOfElem, h]
    · simp only [Bool.not_eq_true] at h
      simp [planOfElem, h]

/-- Counterexample to C2 as stated: a cached token whose expiry is below
now + 60 does not always lead to a fresh login request — when the SOEID
prompt and its system default are both empty the flow aborts with no login
request at all. -/
theorem C2_counterexample :
    cachedAccessToken cfgCached = some "cached" ∧
    emptySoeidEnv.decodeCached = some expiredClaims ∧
    expiredClaims.exp = some 10 ∧
    (10 : Int) ≤ emptySoeidEnv.now + 60 ∧
    (sso_login_and_get_credentials cfgCached emptySoeidEnv).events.countP
      Event.isLogin = 0 := by
  decide

/-- C2 (amended): with a cached token and decodable claims, the reuse guard
(expiry, email and username/subject truthy, expiry > now + 60) passing
means the cached token is returned with zero network calls; when the guard
fails, a fresh password-grant login request is performed provided the SOEID
prompt or its default yields a non-empty value, and with an empty SOEID the
flow aborts with zero network calls. -/
theorem C2_token_reuse (cfg : Config) (env : AuthEnv) (t : String)
    (htok : cachedAccessToken cfg = some t) (ht : t ≠ "")
    (c : Claims) (hdec : env.decodeCached = some c) :
    (reuseClaimsOk c env.now = true →
      (sso_login_and_get_credentials cfg env).access_token = some t ∧
      (sso_login_and_get_credentials cfg env).events.countP Event.isNetwork = 0) ∧
    (reuseClaimsOk c env.now = false →
      (effectiveSoeid env ≠ "" →
        (sso_login_and_get_credentials cfg env).events.countP Event.isLogin = 1 ∧
        (sso_login_and_get_credentials cfg env).events.countP Event.isNetwork = 1) ∧
      (effectiveSoeid env = "" →
        (sso_login_and_get_credentials cfg env).events.countP Event.isNetwork = 0)) := by
  constructor
  · intro h
    have hev : sso_login_and_get_credentials cfg env =
        { access_token := some t, soeid := pyOrStr c.preferred_username c.sub
          password := none, email_id := c.email
          events := [.cacheRead], config := cfg } := by
      simp [sso_login_and_get_credentials, reuseToken, htok, hdec, ht, h]
    rw [hev]
    exact ⟨rfl, rfl⟩
  · intro h
    constructor
    · intro hs
      rcases hresp : env.loginResponse with f | td
      · have hev : (sso_login_and_get_credentials cfg env).events =
            [.cacheRead, .promptSoeid, .promptPassword, .loginRequest] := by
          simp [sso_login_and_get_credentials, reuseToken, make_api_call, htok, hdec, ht, h, hs, hresp]
        rw [hev]
        exact ⟨rfl, rfl⟩
      · by_cases hk : hasKey td "access_token" = true
        · have hev : (sso_login_and_get_credentials cfg env).events =
              [.cacheRead, .promptSoeid, .promptPassword, .loginRequest,
               .cacheWrite (td.foldl (fun s kv => setKey s kv.1 kv.2) cfg.tokenSection)] := by
            simp [sso_login_and_get_credentials, reuseToken, make_api_call, htok, hdec, ht, h, hs,
              hresp, hk]
          rw [hev]
          exact ⟨rfl, rfl⟩
        · have hev : (sso_login_and_get_credentials cfg env).events =
              [.cacheRead, .promptSoeid, .promptPassword, .loginRequest] := by
            simp only [Bool.not_eq_true] at hk
            simp [sso_login_and_get_credentials, reuseToken, make_api_call, htok, hdec, ht, h, hs,
              hresp, hk]
          rw [hev]
          exact ⟨rfl, rfl⟩
    · intro hs
      have hev : (sso_login_and_get_credentials cfg env).events =
          [.cacheRead, .promptSoeid] := by
        simp [sso_login_and_get_credentials, reuseToken, htok, hdec, ht, h, hs]
      rw [hev]
      rfl

/-- Witness for C2: a valid cached token is reused with zero network
calls. -/
theorem C2_token_reuse_witness :
    cachedAccessToken cfgCached = some "cached" ∧
    reuseClaimsOk validClaims 1000 = true ∧
    (sso_login_and_get_credentials cfgCached reuseEnv).access_token = some "cached" ∧
    (sso_login_and_get_credentials cfgCached reuseEnv).events.countP
      Event.isNetwork = 0 := by
  refine ⟨by decide, by decide, ?_, ?_⟩
  · exact ((C2_token_reuse cfgCached reuseEnv "cached" (by decide) (by decide)
      validClaims (by decide)).1 (by decide)).1
  · exact ((C2_token_reuse cfgCached reuseEnv "cached" (by decide) (by decide)
      validClaims (by decide)).1 (by decide)).2

/-- Exhaustive shape analysis of the login step: token reuse, empty-SOEID
abort, failed login, or successful login with a cache write. -/
theorem sso_cases (cfg : Config) (env : AuthEnv) :
    ((sso_login_and_get_credentials cfg env).events = [.cacheRead] ∧
     (sso_login_and_get_credentials cfg env).config = cfg) ∨
    ((sso_login_and_get_credentials cfg env).events = [.cacheRead, .promptSoeid] ∧
     (sso_login_and_get_credentials cfg env).config = cfg) ∨
    ((sso_login_and_get_credentials cfg env).events =
       [.cacheRead, .promptSoeid, .promptPassword, .loginRequest] ∧
     (sso_login_and_get_credentials cfg env).config = cfg ∧
     ¬(∃ td, env.loginResponse = .ok td ∧ hasKey td "access_token" = true)) ∨
    (∃ td, env.loginResponse = .ok td ∧ hasKey td "access_token" = true ∧
     (sso_login_and_get_credentials cfg env).events =
       [.cacheRead, .promptSoeid, .promptPassword, .loginRequest,
        .cacheWrite (td.foldl (fun s kv => setKey s kv.1 kv.2) cfg.tokenSection)] ∧
     (sso_login_and_get_credentials cfg env).config =
       { hasTokenSection := true
         tokenSection := td.foldl (fun s kv => setKey s kv.1 kv.2) cfg.tokenSection }) := by
  rcases hr : reuseToken cfg env with _ | ⟨t, c⟩
  · by_cases hs : effectiveSoeid env = ""
    · right; left
      constructor <;> simp [sso_login_and_get_credentials, hr, hs]
    · rcases hresp : env.loginResponse with f | td
      · right; right; left
        refine ⟨?_, ?_, ?_⟩
        · simp [sso_login_and_get_credentials, make_api_call, hr, hs, hresp]
        · simp [sso_login_and_get_credentials, make_api_call, hr, hs, hresp]
        · rintro ⟨td, htd, _⟩
          exact Except.noConfusion htd
      · by_cases hk : hasKey td "access_token" = true
        · right; right; right
          exact ⟨td, rfl, hk,
            by simp [sso_login_and_get_credentials, make_api_call, hr, hs, hresp, hk],
            by simp [sso_login_and_get_credentials, make_api_call, hr, hs, hresp, hk]⟩
        · right; right; left
          have hk' : hasKey td "access_token" = false := by
            simpa using hk
          refine ⟨?_, ?_, ?_⟩
          · simp [sso_login_and_get_credentials, make_api_call, hr, hs, hresp, hk']
          · simp [sso_login_and_get_credentials, make_api_call, hr, hs, hresp, hk']
          · rintro ⟨td2, htd, hkey⟩
            cases htd
            exact hk hkey
  · left
    constructor <;> simp [sso_login_and_get_credentials, hr]

/-- C5: the token cache is read exactly once and written at most once per
run; a write happens iff a fresh login request was made and its response
carries an access_token, in which case the resulting config section holds
every key of the token payload; with no write the config is unchanged, and
the whole `--init` run adds no further cache reads or writes. -/
theorem C5_cache_lifecycle (cfg : Config) (env : AuthEnv) :
    ((sso_login_and_get_credentials cfg env).events.countP Event.isCacheRead = 1) ∧
    ((sso_login_and_get_credentials cfg env).events.countP Event.isCacheWrite ≤ 1) ∧
    (((sso_login_and_get_credentials cfg env).events.countP Event.isCacheWrite = 1) ↔
      ((sso_login_and_get_credentials cfg env).events.countP Event.isLogin = 1 ∧
       ∃ td, env.loginResponse = .ok td ∧ hasKey td "access_token" = true)) ∧
    (∀ td, env.loginResponse = .ok td → (td.map Prod.fst).Nodup →
      (sso_login_and_get_credentials cfg env).events.countP Event.isCacheWrite = 1 →
      (sso_login_and_get_credentials cfg env).config.hasTokenSection = true ∧
      ∀ kv ∈ td,
        lookupKey (sso_login_and_get_credentials cfg env).config.tokenSection kv.1 =
          some kv.2) ∧
    ((sso_login_and_get_credentials cfg env).events.countP Event.isCacheWrite = 0 →
      (sso_login_and_get_credentials cfg env).config = cfg) ∧
    (∀ (menv : MainEnv) (arg : String), menv.auth = env →
      (mainInit cfg menv arg).2.countP Event.isCacheRead = 1 ∧
      (mainInit cfg menv arg).2.countP Event.isCacheWrite =
        (sso_login_and_get_credentials cfg env).events.countP Event.isCacheWrite) := by
  have hmain : ∀ (menv : MainEnv) (arg : String), menv.auth = env →
      (mainInit cfg menv arg).2.countP Event.isCacheRead =
        (sso_login_and_get_credentials cfg env).events.countP Event.isCacheRead ∧
      (mainInit cfg menv arg).2.countP Event.isCacheWrite =
        (sso_login_and_get_credentials cfg env).events.countP Event.isCacheWrite := by
    intro menv arg hma
    obtain ⟨extra, hex, hp⟩ := mainInit_events cfg menv arg
    rw [hma] at hex
    have hz1 : extra.countP Event.isCacheRead = 0 := by
      rw [List.countP_eq_zero]
      intro e he
      have h1 := isPostAuth_props e (hp e he)
      simp [h1.1]
    have hz2 : extra.countP Event.isCacheWrite = 0 := by
      rw [List.countP_eq_zero]
      intro e he
      have h1 := isPostAuth_props e (hp e he)
      simp [h1.2.1]
    rw [hex, List.countP_append, List.countP_append, hz1, hz2]
    simp
  rcases sso_cases cfg env with ⟨hev, hcf⟩ | ⟨hev, hcf⟩ | ⟨hev, hcf, hfail⟩ |
    ⟨td, htd, hkey, hev, hcf⟩
  · refine ⟨by rw [hev]; rfl, by rw [hev]; decide, ?_, ?_, ?_, ?_⟩
    · rw [hev]
      constructor
      · intro h; cases h
      · rintro ⟨h, _⟩; cases h
    · intro td _ _ hw
      rw [hev] at hw
      cases hw
    · intro _; exact hcf
    · intro menv arg hma
      obtain ⟨h1, h2⟩ := hmain menv arg hma
      exact ⟨by rw [h1, hev]; rfl, h2⟩
  · refine ⟨by rw [hev]; rfl, by rw [hev]; decide, ?_, ?_, ?_, ?_⟩
    · rw [hev]
      constructor
      · intro h; cases h
      · rintro ⟨h, _⟩; cases h
    · intro td _ _ hw
      rw [hev] at hw
      cases hw
    · intro _; exact hcf
    · intro menv arg hma
      obtain ⟨h1, h2⟩ := hmain menv arg hma
      exact ⟨by rw [h1, hev]; rfl, h2⟩
  · refine ⟨by rw [hev]; rfl, by rw [hev]; decide, ?_, ?_, ?_, ?_⟩
    · rw [hev]
      constructor
      · intro h; cases h
      · rintro ⟨_, hsucc⟩; exact absurd hsucc hfail
    · intro td _ _ hw
      rw [hev] at hw
      cases hw
    · intro _; exact hcf
    · intro menv arg hma
      obtain ⟨h1, h2⟩ := hmain menv arg hma
      exact ⟨by rw [h1, hev]; rfl, h2⟩
  · refine ⟨by rw [hev]; rfl, by rw [hev]; exact Nat.le_of_eq rfl, ?_, ?_, ?_, ?_⟩
    · rw [hev]
      constructor
      · intro _; exact ⟨rfl, td, htd, hkey⟩
      · intro _; rfl
    · intro td2 htd2 hnd _
      rw [htd] at htd2
      cases htd2
      rw [hcf]
      exact ⟨rfl, lookupKey_foldl_setKey td cfg.tokenSection hnd⟩
    · intro hw
      rw [hev] at hw
      cases hw
    · intro menv arg hma
      obtain ⟨h1, h2⟩ := hmain menv arg hma
      exact ⟨by rw [h1, hev]; rfl, h2⟩

/-- Witness for C5 at a fresh successful login: one cache read, one cache
write, and the written section retains the full payload. -/
theorem C5_cache_lifecycle_witness :
    freshLoginEnv.loginResponse =
      .ok [("access_token", "tok123"), ("expires_in", "300")] ∧
    (sso_login_and_get_credentials cfgCached freshLoginEnv).events.countP
      Event.isCacheWrite = 1 ∧
    lookupKey (sso_login_and_get_credentials cfgCached freshLoginEnv).config.tokenSection
      "expires_in" = some "300" := by
  refine ⟨rfl, ?_, ?_⟩
  · exact ((C5_cache_lifecycle cfgCached freshLoginEnv).2.2.1).mpr
      ⟨by decide, [("access_token", "tok123"), ("expires_in", "300")], rfl, by decide⟩
  · exact (((C5_cache_lifecycle cfgCached freshLoginEnv).2.2.2.1
      [("access_token", "tok123"), ("expires_in", "300")] rfl (by decide)
      (by decide)).2 ("expires_in", "300") (by decide))

theorem strTruthy_getD (o : Option String) (h : strTruthy o = true) :
    o.getD "" ≠ "" := by
  cases o with
  | none => simp [strTruthy] at h
  | some s => simpa [strTruthy] using h

/-- The resolved email is non-empty when the token email is truthy or the
prompt answer is non-empty. -/
theorem email0_ne (a : AuthOut) (inp : String)
    (h : strTruthy a.email_id = true ∨ inp ≠ "") :
    (if strTruthy a.email_id = true then a.email_id.getD "" else inp) ≠ "" := by
  by_cases h2 : strTruthy a.email_id = true
  · rw [if_pos h2]; exact strTruthy_getD _ h2
  · rw [if_neg h2]
    rcases h with h | h
    · exact absurd h h2
    · exact h

/-- The login step emits no post-authentication events. -/
theorem sso_events_no_postAuth (cfg : Config) (env : AuthEnv) :
    ∀ e ∈ (sso_login_and_get_credentials cfg env).events, e.isPostAuth = false := by
  rcases sso_cases cfg env with ⟨hev, _⟩ | ⟨hev, _⟩ | ⟨hev, _, _⟩ | ⟨td, _, _, hev, _⟩ <;>
    rw [hev] <;> intro e he <;> fin_cases he <;> rfl

theorem sso_countP_eq_zero (cfg : Config) (env : AuthEnv) (p : Event → Bool)
    (hp : ∀ e, p e = true → e.isPostAuth = true) :
    (sso_login_and_get_credentials cfg env).events.countP p = 0 := by
  rw [List.countP_eq_zero]
  intro e he
  intro hc
  have h1 := hp e hc
  rw [sso_events_no_postAuth cfg env e he] at h1
  cases h1

theorem initServicePhase_countP (env : MainEnv) (arg soeid acct : String)
    (ev : List Event) (p : Event → Bool)
    (hp : ∀ e, e.isServicePhase = true → p e = false) :
    (initServicePhase env arg soeid acct ev).2.countP p = ev.countP p := by
  obtain ⟨extra, hex, hsp⟩ := initServicePhase_events env arg soeid acct ev
  rw [hex, List.countP_append]
  have hz : extra.countP p = 0 := by
    rw [List.countP_eq_zero]
    intro e he
    simp [hp e (hsp e he)]
  rw [hz]
  rfl

/-- Reduction of the account phase when the account is missing and a fresh
password was collected at login. -/
theorem accountPhase_pw_some (env : MainEnv) (arg soeid email p : String)
    (ev : List Event) (hfind : find_account_by_soeid env.findResponse = none) :
    accountPhase env arg soeid email (some p) ev =
      accountTail env arg soeid email p (ev ++ [Event.findRequest soeid]) := by
  simp only [accountPhase, hfind, signupPasswordStep]

/-- Reduction when the account is missing, no password was collected, and
the prompt answer is non-empty. -/
theorem accountPhase_pw_prompt (env : MainEnv) (arg soeid email : String)
    (ev : List Event) (hfind : find_account_by_soeid env.findResponse = none)
    (hin : env.signupPasswordInput ≠ "") :
    accountPhase env arg soeid email none ev =
      accountTail env arg soeid email env.signupPasswordInput
        ((ev ++ [Event.findRequest soeid]) ++ [Event.promptSignupPassword]) := by
  simp only [accountPhase, hfind, signupPasswordStep]
  rw [if_neg hin]

/-- Reduction when the account is missing, no password was collected, and
the prompt answer is empty: the flow aborts. -/
theorem accountPhase_pw_empty (env : MainEnv) (arg soeid email : String)
    (ev : List Event) (hfind : find_account_by_soeid env.findResponse = none)
    (hin : env.signupPasswordInput = "") :
    accountPhase env arg soeid email none ev =
      (.abortedPassword, (ev ++ [Event.findRequest soeid]) ++
        [Event.promptSignupPassword]) := by
  simp only [accountPhase, hfind, signupPasswordStep]
  rw [if_pos hin]

theorem accountTail_isSignup (env : MainEnv) (arg soeid email p : String)
    (base : List Event) :
    (accountTail env arg soeid email p base).2.countP Event.isSignup =
      base.countP Event.isSignup + 1 ∧
    (create_threescale_account_via_signup env.signupResponse = none →
      (accountTail env arg soeid email p base).1 = .abortedSignup) := by
  rcases hc : create_threescale_account_via_signup env.signupResponse with _ | acct
  · refine ⟨?_, fun _ => by simp only [accountTail, hc]⟩
    simp only [accountTail, hc]
    rw [List.countP_append]
    rfl
  · refine ⟨?_, fun h => Option.noConfusion h⟩
    simp only [accountTail, hc]
    rw [initServicePhase_countP env arg soeid acct _ Event.isSignup
      (fun e he => (isServicePhase_props e he).2.2.2.1), List.countP_append]
    rfl

/-- Reduction of `mainInit` past authentication and email collection. -/
theorem mainInit_reduces (cfg : Config) (env : MainEnv) (arg : String)
    (htok : strTruthy (sso_login_and_get_credentials cfg env.auth).access_token = true)
    (hmail : (if strTruthy (sso_login_and_get_credentials cfg env.auth).email_id = true
        then (sso_login_and_get_credentials cfg env.auth).email_id.getD ""
        else env.emailInput) ≠ "") :
    mainInit cfg env arg =
      accountPhase env arg ((sso_login_and_get_credentials cfg env.auth).soeid.getD "")
        (if strTruthy (sso_login_and_get_credentials cfg env.auth).email_id = true
          then (sso_login_and_get_credentials cfg env.auth).email_id.getD ""
          else env.emailInput)
        (sso_login_and_get_credentials cfg env.auth).password
        ((sso_login_and_get_credentials cfg env.auth).events ++
          (if strTruthy (sso_login_and_get_credentials cfg env.auth).email_id = true
            then [] else [Event.promptEmail])) := by
  simp only [mainInit]
  rw [if_pos htok, if_neg hmail]

/-- The event prefix up to the account phase contains no signup, create or
service events. -/
theorem prefix_countP (cfg : Config) (env : MainEnv) (p : Event → Bool)
    (hp : ∀ e, p e = true → e.isPostAuth = true)
    (hpe : p Event.promptEmail = false) :
    ((sso_login_and_get_credentials cfg env.auth).events ++
      (if strTruthy (sso_login_and_get_credentials cfg env.auth).email_id = true
        then [] else [Event.promptEmail])).countP p = 0 := by
  rw [List.countP_append, sso_countP_eq_zero cfg env.auth p hp]
  by_cases hb : strTruthy (sso_login_and_get_credentials cfg env.auth).email_id = true
  · rw [if_pos hb]; rfl
  · rw [if_neg hb]
    simp [List.countP_cons, hpe]

/-- Counterexample to C4 as stated: with an account-find response carrying
no id element, a reused token (no password collected) and an empty
password-prompt answer, the flow attempts provisioning zero times, not
exactly once. -/
theorem C4_counterexample :
    noAccountEmptyPasswordEnv.findResponse = .ok { id := none } ∧
    (mainInit cfgCached noAccountEmptyPasswordEnv "id=1").2.countP
      Event.isSignup = 0 ∧
    (mainInit cfgCached noAccountEmptyPasswordEnv "id=1").1 =
      .abortedPassword := by
  refine ⟨rfl, ?_, ?_⟩ <;> decide

/-- C4 (amended): when the account-find result carries no account id, the
flow attempts provisioning at most once — exactly once when a password is
available (the fresh-login password, or a non-empty answer at the prompt),
and zero times, aborting, when the prompt answer is empty; a provisioning
failure (signup returning no account id) terminates the whole flow with no
retry. -/
theorem C4_provisioning_once (cfg : Config) (env : MainEnv) (arg : String)
    (hfind : find_account_by_soeid env.findResponse = none) :
    ((mainInit cfg env arg).2.countP Event.isSignup ≤ 1) ∧
    (strTruthy (sso_login_and_get_credentials cfg env.auth).access_token = true →
     (strTruthy (sso_login_and_get_credentials cfg env.auth).email_id = true ∨
       env.emailInput ≠ "") →
     ((sso_login_and_get_credentials cfg env.auth).password ≠ none ∨
       env.signupPasswordInput ≠ "") →
      ((mainInit cfg env arg).2.countP Event.isSignup = 1 ∧
       (create_threescale_account_via_signup env.signupResponse = none →
         (mainInit cfg env arg).1 = .abortedSignup))) ∧
    (strTruthy (sso_login_and_get_credentials cfg env.auth).access_token = true →
     (strTruthy (sso_login_and_get_credentials cfg env.auth).email_id = true ∨
       env.emailInput ≠ "") →
     ((sso_login_and_get_credentials cfg env.auth).password = none ∧
       env.signupPasswordInput = "") →
      ((mainInit cfg env arg).2.countP Event.isSignup = 0 ∧
       (mainInit cfg env arg).1 = .abortedPassword)) := by
  have hsig : ∀ e : Event, Event.isSignup e = true → e.isPostAuth = true := by
    intro e; cases e <;> simp [Event.isSignup, Event.isPostAuth]
  by_cases htok :
      strTruthy (sso_login_and_get_credentials cfg env.auth).access_token = true
  · by_cases hmail0 :
        (if strTruthy (sso_login_and_get_credentials cfg env.auth).email_id = true
          then (sso_login_and_get_credentials cfg env.auth).email_id.getD ""
          else env.emailInput) = ""
    · have hred : mainInit cfg env arg =
          (.abortedEmail, (sso_login_and_get_credentials cfg env.auth).events ++
            (if strTruthy (sso_login_and_get_credentials cfg env.auth).email_id = true
              then [] else [Event.promptEmail])) := by
        simp only [mainInit]
        rw [if_pos htok, if_pos hmail0]
      have hc0 : (mainInit cfg env arg).2.countP Event.isSignup = 0 := by
        rw [hred]
        exact prefix_countP cfg env Event.isSignup hsig rfl
      refine ⟨by rw [hc0]; exact Nat.zero_le 1, ?_, ?_⟩
      · intro _ hm _
        exact absurd hmail0 (email0_ne _ env.emailInput hm)
      · intro _ hm _
        exact absurd hmail0 (email0_ne _ env.emailInput hm)
    · have hred := mainInit_reduces cfg env arg htok hmail0
      have hpre : ((sso_login_and_get_credentials cfg env.auth).events ++
          (if strTruthy (sso_login_and_get_credentials cfg env.auth).email_id = true
            then [] else [Event.promptEmail])).countP Event.isSignup = 0 :=
        prefix_countP cfg env Event.isSignup hsig rfl
      rcases hpw : (sso_login_and_get_credentials cfg env.auth).password with _ | p
      · by_cases hin : env.signupPasswordInput = ""
        · have hred2 : mainInit cfg env arg =
              (.abortedPassword,
                (((sso_login_and_get_credentials cfg env.auth).events ++
                  (if strTruthy (sso_login_and_get_credentials cfg env.auth).email_id = true
                    then [] else [Event.promptEmail])) ++
                  [Event.findRequest
                    ((sso_login_and_get_credentials cfg env.auth).soeid.getD "")]) ++
                  [Event.promptSignupPassword]) := by
            rw [hred, hpw]
            exact accountPhase_pw_empty env arg _ _ _ hfind hin
          have hc0 : (mainInit cfg env arg).2.countP Event.isSignup = 0 := by
            rw [hred2]
            simp only [List.countP_append, hpre]
            rfl
          refine ⟨by rw [hc0]; exact Nat.zero_le 1, ?_, ?_⟩
          · intro _ _ hp
            rcases hp with hp | hp
            · exact absurd rfl hp
            · exact absurd hin hp
          · intro _ _ _
            exact ⟨hc0, by rw [hred2]⟩
        · have hred2 : mainInit cfg env arg =
              accountTail env arg
                ((sso_login_and_get_credentials cfg env.auth).soeid.getD "")
                (if strTruthy (sso_login_and_get_credentials cfg env.auth).email_id = true
                  then (sso_login_and_get_credentials cfg env.auth).email_id.getD ""
                  else env.emailInput)
                env.signupPasswordInput
                ((((sso_login_and_get_credentials cfg env.auth).events ++
                  (if strTruthy (sso_login_and_get_credentials cfg env.auth).email_id = true
                    then [] else [Event.promptEmail])) ++
                  [Event.findRequest
                    ((sso_login_and_get_credentials cfg env.auth).soeid.getD "")]) ++
                  [Event.promptSignupPassword]) := by
            rw [hred, hpw]
            exact accountPhase_pw_prompt env arg _ _ _ hfind hin
          obtain ⟨hcount, habort⟩ := accountTail_isSignup env arg
            ((sso_login_and_get_credentials cfg env.auth).soeid.getD "")
            (if strTruthy (sso_login_and_get_credentials cfg env.auth).email_id = true
              then (sso_login_and_get_credentials cfg env.auth).email_id.getD ""
              else env.emailInput)
            env.signupPasswordInput
            ((((sso_login_and_get_credentials cfg env.auth).events ++
              (if strTruthy (sso_login_and_get_credentials cfg env.auth).email_id = true
                then [] else [Event.promptEmail])) ++
              [Event.findRequest
                ((sso_login_and_get_credentials cfg env.auth).soeid.getD "")]) ++
              [Event.promptSignupPassword])
          have hbase : ((((sso_login_and_get_credentials cfg env.auth).events ++
              (if strTruthy (sso_login_and_get_credentials cfg env.auth).email_id = true
                then [] else [Event.promptEmail])) ++
              [Event.findRequest
                ((sso_login_and_get_credentials cfg env.auth).soeid.getD "")]) ++
              [Event.promptSignupPassword]).countP Event.isSignup = 0 := by
            simp only [List.countP_append, hpre]
            rfl
          have hc1 : (mainInit cfg env arg).2.countP Event.isSignup = 1 := by
            rw [hred2, hcount, hbase]
          refine ⟨by rw [hc1], ?_, ?_⟩
          · intro _ _ _
            exact ⟨hc1, fun h => by rw [hred2]; exact habort h⟩
          · intro _ _ hp
            exact absurd hp.2 hin
      · have hred2 : mainInit cfg env arg =
            accountTail env arg
              ((sso_login_and_get_credentials cfg env.auth).soeid.getD "")
              (if strTruthy (sso_login_and_get_credentials cfg env.auth).email_id = true
                then (sso_login_and_get_credentials cfg env.auth).email_id.getD ""
                else env.emailInput)
              p
              (((sso_login_and_get_credentials cfg env.auth).events ++
                (if strTruthy (sso_login_and_get_credentials cfg env.auth).email_id = true
                  then [] else [Event.promptEmail])) ++
                [Event.findRequest
                  ((sso_login_and_get_credentials cfg env.auth).soeid.getD "")]) := by
          rw [hred, hpw]
          exact accountPhase_pw_some env arg _ _ p _ hfind
        obtain ⟨hcount, habort⟩ := accountTail_isSignup env arg
          ((sso_login_and_get_credentials cfg env.auth).soeid.getD "")
          (if strTruthy (sso_login_and_get_credentials cfg env.auth).email_id = true
            then (sso_login_and_get_credentials cfg env.auth).email_id.getD ""
            else env.emailInput)
          p
          (((sso_login_and_get_credentials cfg env.auth).events ++
            (if strTruthy (sso_login_and_get_credentials cfg env.auth).email_id = true
              then [] else [Event.promptEmail])) ++
            [Event.findRequest
              ((sso_login_and_get_credentials cfg env.auth).soeid.getD "")])
        have hbase : (((sso_login_and_get_credentials cfg env.auth).events ++
            (if strTruthy (sso_login_and_get_credentials cfg env.auth).email_id = true
              then [] else [Event.promptEmail])) ++
            [Event.findRequest
              ((sso_login_and_get_credentials cfg env.auth).soeid.getD "")]).countP
              Event.isSignup = 0 := by
          simp only [List.countP_append, hpre]
          rfl
        have hc1 : (mainInit cfg env arg).2.countP Event.isSignup = 1 := by
          rw [hred2, hcount, hbase]
        refine ⟨by rw [hc1], ?_, ?_⟩
        · intro _ _ _
          exact ⟨hc1, fun h => by rw [hred2]; exact habort h⟩
        · intro _ _ hp
          exact Option.noConfusion hp.1
  · have hred : mainInit cfg env arg =
        (.abortedAuth, (sso_login_and_get_credentials cfg env.auth).events) := by
      simp only [mainInit]
      rw [if_neg htok]
    refine ⟨?_, fun h => absurd h htok, fun h => absurd h htok⟩
    rw [hred]
    rw [sso_countP_eq_zero cfg env.auth Event.isSignup hsig]
    exact Nat.zero_le 1

/-- Witness for C4 (amended): account missing, password available from the
fresh login, signup succeeds: exactly one signup request. -/
theorem C4_provisioning_once_witness :
    find_account_by_soeid (Except.ok { id := none }) = none ∧
    (mainInit cfgCached
      { nominalEnv with findResponse := .ok { id := none }
                        signupResponse := .ok { id := el "77" } }
      "id=1").2.countP Event.isSignup = 1 :=
  ⟨by decide,
    ((C4_provisioning_once cfgCached
      { nominalEnv with findResponse := .ok { id := none }
                        signupResponse := .ok { id := el "77" } }
      "id=1" (by decide)).2.1 (by decide) (by decide)
      (by decide)).1⟩

theorem not_mem_of_countP_signup (L : List Event)
    (h : L.countP Event.isSignup = 0) (u e pw : String) :
    Event.signupRequest u e pw ∉ L := by
  intro hm
  have h1 := List.countP_eq_zero.mp h _ hm
  simp [Event.isSignup] at h1

/-- Any signup event in the provisioning tail either comes from the base or
carries exactly the tail's identifier, email and password. -/
theorem accountTail_signup_mem (env : MainEnv) (arg soeid email p : String)
    (base : List Event) :
    ∀ u e pw, Event.signupRequest u e pw ∈ (accountTail env arg soeid email p base).2 →
      Event.signupRequest u e pw ∈ base ∨ (u = soeid ∧ e = email ∧ pw = p) := by
  intro u e pw hm
  rcases hc : create_threescale_account_via_signup env.signupResponse with _ | acct
  · simp only [accountTail, hc] at hm
    rcases List.mem_append.mp hm with h | h
    · exact Or.inl h
    · simp at h
      exact Or.inr ⟨h.1, h.2.1, h.2.2⟩
  · simp only [accountTail, hc] at hm
    obtain ⟨extra, hex, hsp⟩ := initServicePhase_events env arg soeid acct
      (base ++ [Event.signupRequest soeid email p])
    rw [hex] at hm
    rcases List.mem_append.mp hm with h | h
    · rcases List.mem_append.mp h with h1 | h1
      · exact Or.inl h1
      · simp at h1
        exact Or.inr ⟨h1.1, h1.2.1, h1.2.2⟩
    · exfalso
      have h1 := hsp _ h
      simp [Event.isServicePhase] at h1

/-- The provisioning tail only appends to its base trace. -/
theorem accountTail_base_sublist (env : MainEnv) (arg soeid email p : String)
    (base : List Event) :
    ∃ tail, (accountTail env arg soeid email p base).2 = base ++ tail := by
  rcases hc : create_threescale_account_via_signup env.signupResponse with _ | acct
  · exact ⟨[Event.signupRequest soeid email p], by simp only [accountTail, hc]⟩
  · obtain ⟨extra, hex, _⟩ := initServicePhase_events env arg soeid acct
      (base ++ [Event.signupRequest soeid email p])
    exact ⟨[Event.signupRequest soeid email p] ++ extra,
      by simp only [accountTail, hc]; rw [hex]; simp⟩

/-- C6: the password passed to signup is the one collected during the fresh
login of the same run; when the token was reused (no password collected)
the flow prompts before provisioning, an empty answer at that prompt aborts
the flow with no signup request, and a non-empty answer is the password
used for signup. -/
theorem C6_signup_password (cfg : Config) (env : MainEnv) (arg : String)
    (hfind : find_account_by_soeid env.findResponse = none)
    (htok : strTruthy (sso_login_and_get_credentials cfg env.auth).access_token = true)
    (hmail : strTruthy (sso_login_and_get_credentials cfg env.auth).email_id = true ∨
      env.emailInput ≠ "") :
    (∀ p, (sso_login_and_get_credentials cfg env.auth).password = some p →
      ∀ u e pw, Event.signupRequest u e pw ∈ (mainInit cfg env arg).2 → pw = p) ∧
    ((sso_login_and_get_credentials cfg env.auth).password = none →
      Event.promptSignupPassword ∈ (mainInit cfg env arg).2 ∧
      (env.signupPasswordInput = "" →
        (mainInit cfg env arg).1 = .abortedPassword ∧
        (mainInit cfg env arg).2.countP Event.isSignup = 0) ∧
      (env.signupPasswordInput ≠ "" →
        ∀ u e pw, Event.signupRequest u e pw ∈ (mainInit cfg env arg).2 →
          pw = env.signupPasswordInput)) := by
  have hsig : ∀ e : Event, Event.isSignup e = true → e.isPostAuth = true := by
    intro e; cases e <;> simp [Event.isSignup, Event.isPostAuth]
  have hmail0 := email0_ne (sso_login_and_get_credentials cfg env.auth)
    env.emailInput hmail
  have hred := mainInit_reduces cfg env arg htok hmail0
  have hpre : ((sso_login_and_get_credentials cfg env.auth).events ++
      (if strTruthy (sso_login_and_get_credentials cfg env.auth).email_id = true
        then [] else [Event.promptEmail])).countP Event.isSignup = 0 :=
    prefix_countP cfg env Event.isSignup hsig rfl
  have hbase1 : (((sso_login_and_get_credentials cfg env.auth).events ++
      (if strTruthy (sso_login_and_get_credentials cfg env.auth).email_id = true
        then [] else [Event.promptEmail])) ++
      [Event.findRequest
        ((sso_login_and_get_credentials cfg env.auth).soeid.getD "")]).countP
      Event.isSignup = 0 := by
    simp only [List.countP_append, hpre]
    rfl
  have hbase2 : ((((sso_login_and_get_credentials cfg env.auth).events ++
      (if strTruthy (sso_login_and_get_credentials cfg env.auth).email_id = true
        then [] else [Event.promptEmail])) ++
      [Event.findRequest
        ((sso_login_and_get_credentials cfg env.auth).soeid.getD "")]) ++
      [Event.promptSignupPassword]).countP Event.isSignup = 0 := by
    simp only [List.countP_append, hpre]
    rfl
  constructor
  · intro p hpw u e pw hm
    rw [hred, hpw, accountPhase_pw_some env arg _ _ p _ hfind] at hm
    rcases accountTail_signup_mem env arg _ _ p _ u e pw hm with h | h
    · exact absurd h (not_mem_of_countP_signup _ hbase1 u e pw)
    · exact h.2.2
  · intro hpw
    by_cases hin : env.signupPasswordInput = ""
    · have hred2 := accountPhase_pw_empty env arg
        ((sso_login_and_get_credentials cfg env.auth).soeid.getD "")
        (if strTruthy (sso_login_and_get_credentials cfg env.auth).email_id = true
          then (sso_login_and_get_credentials cfg env.auth).email_id.getD ""
          else env.emailInput)
        ((sso_login_and_get_credentials cfg env.auth).events ++
          (if strTruthy (sso_login_and_get_credentials cfg env.auth).email_id = true
            then [] else [Event.promptEmail])) hfind hin
      refine ⟨?_, fun _ => ⟨?_, ?_⟩, fun h => absurd hin h⟩
      · rw [hred, hpw, hred2]
        simp
      · rw [hred, hpw, hred2]
      · rw [hred, hpw, hred2]
        exact hbase2
    · have hred2 := accountPhase_pw_prompt env arg
        ((sso_login_and_get_credentials cfg env.auth).soeid.getD "")
        (if strTruthy (sso_login_and_get_credentials cfg env.auth).email_id = true
          then (sso_login_and_get_credentials cfg env.auth).email_id.getD ""
          else env.emailInput)
        ((sso_login_and_get_credentials cfg env.auth).events ++
          (if strTruthy (sso_login_and_get_credentials cfg env.auth).email_id = true
            then [] else [Event.promptEmail])) hfind hin
      refine ⟨?_, fun h => absurd h hin, fun _ u e pw hm => ?_⟩
      · rw [hred, hpw, hred2]
        obtain ⟨tail, htail⟩ := accountTail_base_sublist env arg
          ((sso_login_and_get_credentials cfg env.auth).soeid.getD "")
          (if strTruthy (sso_login_and_get_credentials cfg env.auth).email_id = true
            then (sso_login_and_get_credentials cfg env.auth).email_id.getD ""
            else env.emailInput)
          env.signupPasswordInput
          ((((sso_login_and_get_credentials cfg env.auth).events ++
            (if strTruthy (sso_login_and_get_credentials cfg env.auth).email_id = true
              then [] else [Event.promptEmail])) ++
            [Event.findRequest
              ((sso_login_and_get_credentials cfg env.auth).soeid.getD "")]) ++
            [Event.promptSignupPassword])
        rw [htail]
        simp
      · rw [hred, hpw, hred2] at hm
        rcases accountTail_signup_mem env arg _ _ env.signupPasswordInput _ u e pw hm
          with h | h
        · exact absurd h (not_mem_of_countP_signup _ hbase2 u e pw)
        · exact h.2.2

/-- Witness for C6: reused token (no collected password), missing account,
empty prompt answer: the prompt occurs and the flow aborts. -/
theorem C6_signup_password_witness :
    find_account_by_soeid noAccountEmptyPasswordEnv.findResponse = none ∧
    (sso_login_and_get_credentials cfgCached noAccountEmptyPasswordEnv.auth).password
      = none ∧
    Event.promptSignupPassword ∈ (mainInit cfgCached noAccountEmptyPasswordEnv "id=1").2 ∧
    (mainInit cfgCached noAccountEmptyPasswordEnv "id=1").1 = .abortedPassword :=
  ⟨by decide, by decide,
    ((C6_signup_password cfgCached noAccountEmptyPasswordEnv "id=1" (by decide)
      (by decide) (Or.inl (by decide))).2 (by decide)).1,
    (((C6_signup_password cfgCached noAccountEmptyPasswordEnv "id=1" (by decide)
      (by decide) (Or.inl (by decide))).2 (by decide)).2.1 (by decide)).1⟩

/-- When the account is missing and a password is available, the run makes
exactly one signup request. -/
theorem mainInit_signup_one (cfg : Config) (env : MainEnv) (arg : String)
    (hfind : find_account_by_soeid env.findResponse = none)
    (htok : strTruthy (sso_login_and_get_credentials cfg env.auth).access_token = true)
    (hmail : strTruthy (sso_login_and_get_credentials cfg env.auth).email_id = true ∨
      env.emailInput ≠ "")
    (hpw : (sso_login_and_get_credentials cfg env.auth).password ≠ none ∨
      env.signupPasswordInput ≠ "") :
    (mainInit cfg env arg).2.countP Event.isSignup = 1 := by
  have hsig : ∀ e : Event, Event.isSignup e = true → e.isPostAuth = true := by
    intro e; cases e <;> simp [Event.isSignup, Event.isPostAuth]
  have hmail0 := email0_ne (sso_login_and_get_credentials cfg env.auth)
    env.emailInput hmail
  have hred := mainInit_reduces cfg env arg htok hmail0
  have hpre : ((sso_login_and_get_credentials cfg env.auth).events ++
      (if strTruthy (sso_login_and_get_credentials cfg env.auth).email_id = true
        then [] else [Event.promptEmail])).countP Event.isSignup = 0 :=
    prefix_countP cfg env Event.isSignup hsig rfl
  have hbase1 : (((sso_login_and_get_credentials cfg env.auth).events ++
      (if strTruthy (sso_login_and_get_credentials cfg env.auth).email_id = true
        then [] else [Event.promptEmail])) ++
      [Event.findRequest
        ((sso_login_and_get_credentials cfg env.auth).soeid.getD "")]).countP
      Event.isSignup = 0 := by
    simp only [List.countP_append, hpre]
    rfl
  have hbase2 : ((((sso_login_and_get_credentials cfg env.auth).events ++
      (if strTruthy (sso_login_and_get_credentials cfg env.auth).email_id = true
        then [] else [Event.promptEmail])) ++
      [Event.findRequest
        ((sso_login_and_get_credentials cfg env.auth).soeid.getD "")]) ++
      [Event.promptSignupPassword]).countP Event.isSignup = 0 := by
    simp only [List.countP_append, hpre]
    rfl
  rcases hpwv : (sso_login_and_get_credentials cfg env.auth).password with _ | p
  · have hin : env.signupPasswordInput ≠ "" := by
      rcases hpw with h | h
      · rw [hpwv] at h
        exact absurd rfl h
      · exact h
    rw [hred, hpwv, accountPhase_pw_prompt env arg _ _ _ hfind hin,
      (accountTail_isSignup env arg _ _ _ _).1, hbase2]
  · rw [hred, hpwv, accountPhase_pw_some env arg _ _ p _ hfind,
      (accountTail_isSignup env arg _ _ _ _).1, hbase1]

/-- C8: a failed account-find API call (connection error, timeout, HTTP
error or parse error) is indistinguishable at the resolver's interface from
a genuine not-found response: both give `none`, the whole run behaves
identically, and the flow proceeds to attempt provisioning. -/
theorem C8_find_failure_indistinguishable :
    (∀ f, find_account_by_soeid (.error f) = none) ∧
    (∀ f root, root.id = none →
      find_account_by_soeid (.error f) = find_account_by_soeid (.ok root)) ∧
    (∀ (cfg : Config) (env : MainEnv) (arg : String) (f : ApiFailure)
        (root : AccountXml), root.id = none →
      mainInit cfg { env with findResponse := .error f } arg =
        mainInit cfg { env with findResponse := .ok root } arg) ∧
    (∀ (cfg : Config) (env : MainEnv) (arg : String) (f : ApiFailure),
      env.findResponse = .error f →
      strTruthy (sso_login_and_get_credentials cfg env.auth).access_token = true →
      (strTruthy (sso_login_and_get_credentials cfg env.auth).email_id = true ∨
        env.emailInput ≠ "") →
      ((sso_login_and_get_credentials cfg env.auth).password ≠ none ∨
        env.signupPasswordInput ≠ "") →
      (mainInit cfg env arg).2.countP Event.isSignup = 1) := by
  refine ⟨fun f => rfl, ?_, ?_, ?_⟩
  · intro f root h
    simp [find_account_by_soeid, make_api_call, h]
  · intro cfg env arg f root hroot
    have h1 : find_account_by_soeid (.error f) = none := rfl
    have h2 : find_account_by_soeid (.ok root) = none := by
      simp [find_account_by_soeid, make_api_call, hroot]
    simp only [mainInit, accountPhase, signupPasswordStep, accountTail,
      initServicePhase, h1, h2]
  · intro cfg env arg f hresp htok hmail hpw
    have hfind : find_account_by_soeid env.findResponse = none := by
      rw [hresp]
      rfl
    exact mainInit_signup_one cfg env arg hfind htok hmail hpw

/-- Witness for C8: a timeout on the find call leads to a provisioning
attempt exactly as a not-found response does. -/
theorem C8_find_failure_indistinguishable_witness :
    ({ nominalEnv with findResponse := .error .timeoutError
                       signupResponse := .ok { id := el "77" } } :
      MainEnv).findResponse = .error .timeoutError ∧
    (mainInit cfgCached
      { nominalEnv with findResponse := .error .timeoutError
                        signupResponse := .ok { id := el "77" } }
      "id=1").2.countP Event.isSignup = 1 :=
  ⟨rfl,
    C8_find_failure_indistinguishable.2.2.2 cfgCached
      { nominalEnv with findResponse := .error .timeoutError
                        signupResponse := .ok { id := el "77" } }
      "id=1" .timeoutError rfl (by decide) (by decide) (by decide)⟩

theorem accountPhase_found (env : MainEnv) (arg soeid email : String)
    (pw : Option String) (ev : List Event) (acct : String)
    (hfind : find_account_by_soeid env.findResponse = some acct) :
    accountPhase env arg soeid email pw ev =
      initServicePhase env arg soeid acct (ev ++ [Event.findRequest soeid]) := by
  simp only [accountPhase, hfind]

/-- With a malformed argument or no matching service, the service phase
aborts, adding at most the services request to the trace. -/
theorem initServicePhase_abort (env : MainEnv) (arg : String)
    (h : parseInitArg arg = none ∨
      ∃ t v, parseInitArg arg = some (t, v) ∧
        selectService t v (list_services env.servicesResponse) = none) :
    ∀ soeid acct ev,
      ((initServicePhase env arg soeid acct ev).1 = .abortedBadArg ∨
       (initServicePhase env arg soeid acct ev).1 = .abortedNoService) ∧
      ((initServicePhase env arg soeid acct ev).2 = ev ∨
       (initServicePhase env arg soeid acct ev).2 = ev ++ [Event.servicesRequest]) := by
  intro soeid acct ev
  rcases h with h | ⟨t, v, hp, hsel⟩
  · simp only [initServicePhase, h]
    exact ⟨Or.inl trivial, Or.inl trivial⟩
  · simp only [initServicePhase, hp, hsel]
    exact ⟨Or.inr trivial, Or.inr trivial⟩

theorem accountTail_abort (env : MainEnv) (arg soeid email p : String)
    (base : List Event)
    (h : parseInitArg arg = none ∨
      ∃ t v, parseInitArg arg = some (t, v) ∧
        selectService t v (list_services env.servicesResponse) = none)
    (hbase : base.countP Event.isCreate = 0) :
    (accountTail env arg soeid email p base).2.countP Event.isCreate = 0 ∧
    ∀ k, (accountTail env arg soeid email p base).1 ≠ .gotKey k := by
  have hsb : (base ++ [Event.signupRequest soeid email p]).countP Event.isCreate = 0 := by
    rw [List.countP_append, hbase]
    rfl
  rcases hc : create_threescale_account_via_signup env.signupResponse with _ | acct
  · constructor
    · simp only [accountTail, hc]
      exact hsb
    · intro k
      simp only [accountTail, hc]
      exact fun hk => MainResult.noConfusion hk
  · obtain ⟨hres, hevs⟩ := initServicePhase_abort env arg h soeid acct
      (base ++ [Event.signupRequest soeid email p])
    constructor
    · simp only [accountTail, hc]
      rcases hevs with h1 | h1
      · rw [h1]
        exact hsb
      · rw [h1, List.countP_append, hsb]
        rfl
    · intro k
      simp only [accountTail, hc]
      rcases hres with h1 | h1 <;> rw [h1] <;>
        exact fun hk => MainResult.noConfusion hk

/-- With a malformed argument or no matching service, the whole run issues
no create request and returns no key. -/
theorem mainInit_abort_no_create (cfg : Config) (env : MainEnv) (arg : String)
    (h : parseInitArg arg = none ∨
      ∃ t v, parseInitArg arg = some (t, v) ∧
        selectService t v (list_services env.servicesResponse) = none) :
    (mainInit cfg env arg).2.countP Event.isCreate = 0 ∧
    ∀ k, (mainInit cfg env arg).1 ≠ .gotKey k := by
  have hcr : ∀ e : Event, Event.isCreate e = true → e.isPostAuth = true := by
    intro e; cases e <;> simp [Event.isCreate, Event.isPostAuth]
  by_cases htok :
      strTruthy (sso_login_and_get_credentials cfg env.auth).access_token = true
  · by_cases hmail0 :
        (if strTruthy (sso_login_and_get_credentials cfg env.auth).email_id = true
          then (sso_login_and_get_credentials cfg env.auth).email_id.getD ""
          else env.emailInput) = ""
    · have hred : mainInit cfg env arg =
          (.abortedEmail, (sso_login_and_get_credentials cfg env.auth).events ++
            (if strTruthy (sso_login_and_get_credentials cfg env.auth).email_id = true
              then [] else [Event.promptEmail])) := by
        simp only [mainInit]
        rw [if_pos htok, if_pos hmail0]
      rw [hred]
      exact ⟨prefix_countP cfg env Event.isCreate hcr rfl,
        fun k hk => MainResult.noConfusion hk⟩
    · have hred := mainInit_reduces cfg env arg htok hmail0
      have hpre : ((sso_login_and_get_credentials cfg env.auth).events ++
          (if strTruthy (sso_login_and_get_credentials cfg env.auth).email_id = true
            then [] else [Event.promptEmail])).countP Event.isCreate = 0 :=
        prefix_countP cfg env Event.isCreate hcr rfl
      have hbase1 : (((sso_login_and_get_credentials cfg env.auth).events ++
          (if strTruthy (sso_login_and_get_credentials cfg env.auth).email_id = true
            then [] else [Event.promptEmail])) ++
          [Event.findRequest
            ((sso_login_and_get_credentials cfg env.auth).soeid.getD "")]).countP
          Event.isCreate = 0 := by
        rw [List.countP_append, hpre]
        rfl
      have hbase2 : ((((sso_login_and_get_credentials cfg env.auth).events ++
          (if strTruthy (sso_login_and_get_credentials cfg env.auth).email_id = true
            then [] else [Event.promptEmail])) ++
          [Event.findRequest
            ((sso_login_and_get_credentials cfg env.auth).soeid.getD "")]) ++
          [Event.promptSignupPassword]).countP Event.isCreate = 0 := by
        rw [List.countP_append, hbase1]
        rfl
      rcases hfind : find_account_by_soeid env.findResponse with _ | acct
      · rcases hpwv : (sso_login_and_get_credentials cfg env.auth).password with _ | p
        · by_cases hin : env.signupPasswordInput = ""
          · rw [hred, hpwv, accountPhase_pw_empty env arg _ _ _ hfind hin]
            exact ⟨hbase2, fun k hk => MainResult.noConfusion hk⟩
          · rw [hred, hpwv, accountPhase_pw_prompt env arg _ _ _ hfind hin]
            exact accountTail_abort env arg _ _ _ _ h hbase2
        · rw [hred, hpwv, accountPhase_pw_some env arg _ _ p _ hfind]
          exact accountTail_abort env arg _ _ _ _ h hbase1
      · rw [hred, accountPhase_found env arg _ _ _ _ acct hfind]
        obtain ⟨hres, hevs⟩ := initServicePhase_abort env arg h
          ((sso_login_and_get_credentials cfg env.auth).soeid.getD "") acct
          (((sso_login_and_get_credentials cfg env.auth).events ++
            (if strTruthy (sso_login_and_get_credentials cfg env.auth).email_id = true
              then [] else [Event.promptEmail])) ++
            [Event.findRequest
              ((sso_login_and_get_credentials cfg env.auth).soeid.getD "")])
        constructor
        · rcases hevs with h1 | h1
          · rw [h1]
            exact hbase1
          · rw [h1, List.countP_append, hbase1]
            rfl
        · intro k
          rcases hres with h1 | h1 <;> rw [h1] <;>
            exact fun hk => MainResult.noConfusion hk
  · have hred : mainInit cfg env arg =
        (.abortedAuth, (sso_login_and_get_credentials cfg env.auth).events) := by
      simp only [mainInit]
      rw [if_neg htok]
    rw [hred]
    exact ⟨sso_countP_eq_zero cfg env.auth Event.isCreate hcr,
      fun k hk => MainResult.noConfusion hk⟩

/-- C10: `--init` name lookup compares names case-insensitively, id lookup
uses exact equality, the first service in catalog order wins, and a
malformed argument or one matching no service aborts without any API-key
action (no create request, no key returned). -/
theorem C10_service_selection :
    (∀ v svcs, selectService .byName v svcs =
      svcs.find? (fun s => pyLower s.name == pyLower v)) ∧
    (∀ v svcs, selectService .byId v svcs = svcs.find? (fun s => s.id == v)) ∧
    (∀ (cfg : Config) (env : MainEnv) (arg : String), parseInitArg arg = none →
      (mainInit cfg env arg).2.countP Event.isCreate = 0 ∧
      ∀ k, (mainInit cfg env arg).1 ≠ .gotKey k) ∧
    (∀ (cfg : Config) (env : MainEnv) (arg : String) (t : IdType) (v : String),
      parseInitArg arg = some (t, v) →
      selectService t v (list_services env.servicesResponse) = none →
      (mainInit cfg env arg).2.countP Event.isCreate = 0 ∧
      ∀ k, (mainInit cfg env arg).1 ≠ .gotKey k) := by
  refine ⟨selectService_byName_eq_find, selectService_byId_eq_find, ?_, ?_⟩
  · intro cfg env arg hp
    exact mainInit_abort_no_create cfg env arg (Or.inl hp)
  · intro cfg env arg t v hp hsel
    exact mainInit_abort_no_create cfg env arg (Or.inr ⟨t, v, hp, hsel⟩)

/-- Witness for C10: the argument `plan=1` is malformed, the run issues no
create request and returns no key. -/
theorem C10_service_selection_witness :
    parseInitArg "plan=1" = none ∧
    (mainInit cfgCached nominalEnv "plan=1").2.countP Event.isCreate = 0 ∧
    (∀ k, (mainInit cfgCached nominalEnv "plan=1").1 ≠ .gotKey k) :=
  ⟨by decide,
    (C10_service_selection.2.2.1 cfgCached nominalEnv "plan=1" (by decide)).1,
    (C10_service_selection.2.2.1 cfgCached nominalEnv "plan=1" (by decide)).2⟩

end Helix
